import Mathlib

/-!
# Distributed finite-element entity model: SoTet10 serialization and SoHex27 multiscale coupling

A shallow embedding of `src/so3/4C_so3_tet10.cpp` and `src/so3/4C_so3_hex27_multiscale.cpp`.

* C++ routines that mutate an object and may throw are functions `σ → Except Error α × σ`
  (`Exec σ α`): the state reached at the throw is part of the result, as it is for a C++ object
  after an exception left one of its member functions.
* `std::shared_ptr<PreStress>` is an optional address into an explicit heap of `PreStress`
  objects, so that aliasing and in-place mutation through the pointer are visible.
* `double` is an arbitrary type `D`, `Core::LinAlg::Matrix<NUMDIM_SOTET10, NUMDIM_SOTET10>` an
  arbitrary type `M` with a zero; serialization copies such values verbatim.
-/

namespace FourC

/-! ## Errors and throwing computations -/

/-- The run-terminating errors (`FOUR_C_THROW`, C++ exceptions) that the embedded code can raise. -/
inductive Error where
  /-- Wire tag or length inconsistency during unpack. -/
  | protocolMismatch
  /-- A container was asked to take a negative (hence enormous unsigned) size. -/
  | lengthError
  /-- Dereference of a null or dangling `shared_ptr`. -/
  | nullDereference
  /-- Raised by `throw_error_fd_material_tangent`. -/
  | fdMaterialTangent
  /-- `Teuchos::ParameterList::get<T>` on an entry that holds another type. -/
  | invalidParameterType
  deriving DecidableEq, Repr

/-- A routine over a mutable state `σ` that returns an `α` or throws; the state it reached is
returned in both cases. -/
def Exec (σ α : Type) : Type := σ → Except Error α × σ

namespace Exec

variable {σ τ α β : Type}

/-- Run a routine from a start state. -/
def run (x : Exec σ α) (s : σ) : Except Error α × σ := x s

/-- Normal return. -/
def ret (a : α) : Exec σ α := fun s => (Except.ok a, s)

/-- Sequencing: a throw in the first routine skips the second and keeps the state of the throw. -/
def andThen (x : Exec σ α) (f : α → Exec σ β) : Exec σ β := fun s =>
  match x s with
  | (Except.ok a, s1) => f a s1
  | (Except.error e, s1) => (Except.error e, s1)

instance : Monad (Exec σ) where
  pure := ret
  bind := andThen

/-- Raise an error in the current state. -/
def raise (e : Error) : Exec σ α := fun s => (Except.error e, s)

/-- Read the current state. -/
def read : Exec σ σ := fun s => (Except.ok s, s)

/-- Update the current state. -/
def update (f : σ → σ) : Exec σ Unit := fun s => (Except.ok (), f s)

/-- Run a routine of a component `τ` of the state `σ` (a member passed by reference). -/
def focus (get : σ → τ) (set : σ → τ → σ) (x : Exec τ α) : Exec σ α := fun s =>
  ((x (get s)).1, set s (x (get s)).2)

/-- The counted loop `for (int i = start; i < start + count; ++i) body(i)`. -/
def forLoop (body : Nat → Exec σ Unit) : Nat → Nat → Exec σ Unit
  | _, 0 => ret ()
  | i, k + 1 => andThen (body i) (fun _ => forLoop body (i + 1) k)

end Exec

/-! ## Serialization buffer -/

/-- Prestress modes, `Inpar::Solid::PreStress`. -/
inductive PreStressType where
  | none
  | mulf
  | material_iterative
  deriving DecidableEq, Repr

/-- Modelled from the spec: `Prestress::is_mulf` of `4C_so3_prestress_service.hpp`, which is not
among the translated sources; the prestress state exists only in the "incremental/MULF" mode. -/
def is_mulf (pstype : PreStressType) : Bool :=
  match pstype with
  | PreStressType.mulf => true
  | _ => false

/-- Modelled from the spec: the unit of the flat, ordered channel of `4C_comm_pack_helpers.hpp`
(not among the translated sources). The buffer holds "a fixed set of primitive/composite kinds
(scalars, fixed-size vectors/matrices, variable-length sequences prefixed by their count)";
a cell is one scalar or one fixed-size matrix, copied verbatim. -/
inductive Cell (D M : Type) where
  | int (i : Int)
  | double (d : D)
  | prestress_type (p : PreStressType)
  | matrix (m : M)
  deriving DecidableEq, Repr

/-- The writer side, `Core::Communication::PackBuffer`: cells appended so far. -/
abbrev PackBuffer (D M : Type) : Type := List (Cell D M)

/-- The reader side, `Core::Communication::UnpackBuffer`: cells not yet consumed. -/
abbrev UnpackBuffer (D M : Type) : Type := List (Cell D M)

section PackHelpers

variable {D M : Type}

/-- Modelled from the spec: `add_to_pack` for an `int` appends one scalar. -/
def add_to_pack_int (i : Int) : Exec (PackBuffer D M) Unit :=
  Exec.update (fun data => data ++ [Cell.int i])

/-- Modelled from the spec: `add_to_pack` for a `double` appends one scalar. -/
def add_to_pack_double (d : D) : Exec (PackBuffer D M) Unit :=
  Exec.update (fun data => data ++ [Cell.double d])

/-- Modelled from the spec: `add_to_pack` for the prestress enum appends one scalar. -/
def add_to_pack_prestress_type (p : PreStressType) : Exec (PackBuffer D M) Unit :=
  Exec.update (fun data => data ++ [Cell.prestress_type p])

/-- Modelled from the spec: `add_to_pack` for a fixed-size matrix appends it without a count. -/
def add_to_pack_matrix (m : M) : Exec (PackBuffer D M) Unit :=
  Exec.update (fun data => data ++ [Cell.matrix m])

/-- Modelled from the spec: `add_to_pack` for a `std::vector<double>`, a variable-length
sequence "prefixed by [its] count". -/
def add_to_pack_vector (v : List D) : Exec (PackBuffer D M) Unit :=
  Exec.update (fun data => data ++ Cell.int (v.length : Int) :: v.map Cell.double)

/-- Modelled from the spec: `add_to_pack` for a packable object: the object is packed into a
buffer of its own, which is appended as a variable-length sequence prefixed by its count. -/
def add_to_pack_object (packed : PackBuffer D M) : Exec (PackBuffer D M) Unit :=
  Exec.update (fun data => data ++ Cell.int (packed.length : Int) :: packed)

/-- Modelled from the spec: `extract_from_pack` for an `int`; a short read or a cell of another
kind is a `ProtocolMismatch`. -/
def extract_int : Exec (UnpackBuffer D M) Int := fun buffer =>
  match buffer with
  | Cell.int i :: rest => (Except.ok i, rest)
  | _ => (Except.error Error.protocolMismatch, buffer)

/-- Modelled from the spec: `extract_from_pack` for a `double`. -/
def extract_double : Exec (UnpackBuffer D M) D := fun buffer =>
  match buffer with
  | Cell.double d :: rest => (Except.ok d, rest)
  | _ => (Except.error Error.protocolMismatch, buffer)

/-- Modelled from the spec: `extract_from_pack` for the prestress enum. -/
def extract_prestress_type : Exec (UnpackBuffer D M) PreStressType := fun buffer =>
  match buffer with
  | Cell.prestress_type p :: rest => (Except.ok p, rest)
  | _ => (Except.error Error.protocolMismatch, buffer)

/-- Modelled from the spec: `extract_from_pack` for a fixed-size matrix. -/
def extract_matrix : Exec (UnpackBuffer D M) M := fun buffer =>
  match buffer with
  | Cell.matrix m :: rest => (Except.ok m, rest)
  | _ => (Except.error Error.protocolMismatch, buffer)

/-- Read `k` doubles in sequence, collecting them after `acc`. -/
def extract_doubles : Nat → List D → Exec (UnpackBuffer D M) (List D)
  | 0, acc => Exec.ret acc
  | k + 1, acc => Exec.andThen extract_double (fun d => extract_doubles k (acc ++ [d]))

/-- Modelled from the spec: `extract_from_pack` for a `std::vector<double>`: the count, then that
many elements; the vector read replaces the previous contents of the target. -/
def extract_vector : Exec (UnpackBuffer D M) (List D) :=
  Exec.andThen extract_int (fun n =>
    if n < 0 then Exec.raise Error.protocolMismatch else extract_doubles n.toNat [])

/-- Modelled from the spec: `extract_from_pack` for a `std::vector<char>` holding a packed
object: the count, then that many cells. -/
def extract_object : Exec (UnpackBuffer D M) (UnpackBuffer D M) :=
  Exec.andThen extract_int (fun n => fun buffer =>
    if n < 0 ∨ buffer.length < n.toNat then (Except.error Error.protocolMismatch, buffer)
    else (Except.ok (buffer.take n.toNat), buffer.drop n.toNat))

/-- Modelled from the spec: `Core::Communication::extract_and_assert_id`: reads the leading type
tag and "a mismatched tag on read fails with `ProtocolMismatch` and aborts the unpack". -/
def extract_and_assert_id (desired_type_id : Int) : Exec (UnpackBuffer D M) Unit :=
  Exec.andThen extract_int (fun type_id =>
    if type_id = desired_type_id then Exec.ret () else Exec.raise Error.protocolMismatch)

end PackHelpers

/-! ## Heap of prestress objects -/

/-- The objects owned through `std::shared_ptr<PreStress>`; a pointer is an index, `none` is
`nullptr`. -/
abbrev Heap (P : Type) : Type := List P

section HeapOps

variable {P α : Type}

/-- The call `std::make_shared<PreStress>(...)`: a fresh address holding the given object. -/
def make_shared (p : P) : Exec (Heap P) Nat := fun heap =>
  (Except.ok heap.length, heap ++ [p])

/-- Read through a pointer, `*ptr`. -/
def deref (ptr : Option Nat) : Exec (Heap P) P := fun heap =>
  match ptr with
  | some a =>
    match heap[a]? with
    | some p => (Except.ok p, heap)
    | none => (Except.error Error.nullDereference, heap)
  | none => (Except.error Error.nullDereference, heap)

/-- Call a member function on the pointee, `ptr->f(...)`: the pointee is modified in place. -/
def through_ptr (ptr : Option Nat) (f : Exec P α) : Exec (Heap P) α := fun heap =>
  match ptr with
  | some a =>
    match heap[a]? with
    | some p => ((f p).1, heap.set a (f p).2)
    | none => (Except.error Error.nullDereference, heap)
  | none => (Except.error Error.nullDereference, heap)

/-- The call `std::vector::resize(n, fill)`. -/
def resize (v : List α) (n : Nat) (fill : α) : List α :=
  v.take n ++ List.replicate (n - v.length) fill

end HeapOps

/-! ## The SoTet10 entity -/

/-- The state of the base class `SoBase` that the element code reads: identity and owning rank. -/
structure SoBase where
  id : Int
  owner : Int
  deriving DecidableEq, Repr

/-- The data members of `Discret::Elements::SoTet10`. -/
structure SoTet10 (D M : Type) extends SoBase where
  /-- Jacobian determinants at the integration points of the stiffness scheme. -/
  detJ_ : List D
  /-- Jacobian determinants at the integration points of the mass scheme. -/
  detJ_mass_ : List D
  /-- Inverse Jacobians at the integration points of the stiffness scheme. -/
  invJ_ : List M
  /-- Inverse Jacobians at the integration points of the mass scheme. -/
  invJ_mass_ : List M
  pstype_ : PreStressType
  pstime_ : D
  time_ : D
  /-- The member `std::shared_ptr<PreStress> prestress_`. -/
  prestress_ : Option Nat

/-- Declarations that `4C_so3_tet10.cpp` uses and that are not among the translated sources,
taken as parameters: the constants of `4C_so3_tet10.hpp`, the registered object id and type
string, the base class serialization and the class `PreStress`. -/
structure Tet10Interface (D M P : Type) where
  NUMNOD_SOTET10 : Nat
  NUMGPT_SOTET10 : Nat
  NUMGPT_MASS_SOTET10 : Nat
  unique_par_object_id : Int
  get_element_type_string : String
  /-- The cells that `SoBase::pack` appends for a base state. -/
  SoBase_pack : SoBase → PackBuffer D M
  /-- The routine `SoBase::unpack`, acting on the base state and the buffer. -/
  SoBase_unpack : Exec (SoBase × UnpackBuffer D M) Unit
  /-- The constructor `PreStress(numnode, ngp)`. -/
  PreStress_ctor : Nat → Nat → P
  /-- The cells that `PreStress::pack` writes into a buffer of its own. -/
  PreStress_pack : P → PackBuffer D M
  /-- The routine `PreStress::unpack` on a buffer, acting on the prestress object. -/
  PreStress_unpack : UnpackBuffer D M → Exec P Unit

/-- What the constructor reads from `Global::Problem::instance()` and the prestress service. -/
structure GlobalProblem (D : Type) where
  /-- Whether `get_parameter_list()` is non-null. -/
  get_parameter_list : Bool
  /-- The result of `Prestress::get_type()`. -/
  get_type : PreStressType
  /-- The result of `Prestress::get_prestress_time()`. -/
  get_prestress_time : D
  /-- The routine `Utils::throw_error_fd_material_tangent(sdyn, eletype)`. -/
  throw_error_fd_material_tangent : String → Except Error Unit

/-- What `unpack` acts on: the prestress heap, the target entity and the buffer being read. -/
structure Tet10State (D M P : Type) where
  heap : Heap P
  self : SoTet10 D M
  buffer : UnpackBuffer D M

section Tet10

variable {D M P : Type} [Zero D] [Zero M]

/-- The constructor `SoTet10::SoTet10(int id, int owner)`. -/
def SoTet10.ctor (ctx : Tet10Interface D M P) (problem : GlobalProblem D) (id owner : Int) :
    Exec (Heap P) (SoTet10 D M) := do
  let self : SoTet10 D M :=
    { id := id, owner := owner, detJ_ := [], detJ_mass_ := [], invJ_ := [], invJ_mass_ := [],
      pstype_ := PreStressType.none, pstime_ := 0, time_ := 0, prestress_ := none }
  let self := { self with invJ_ := resize self.invJ_ ctx.NUMGPT_SOTET10 0 }
  let self := { self with detJ_ := resize self.detJ_ ctx.NUMGPT_SOTET10 0 }
  let self := { self with invJ_mass_ := resize self.invJ_mass_ ctx.NUMGPT_MASS_SOTET10 0 }
  let self := { self with detJ_mass_ := resize self.detJ_mass_ ctx.NUMGPT_MASS_SOTET10 0 }
  let self ←
    if problem.get_parameter_list then
      let self := { self with pstype_ := problem.get_type }
      let self := { self with pstime_ := problem.get_prestress_time }
      match problem.throw_error_fd_material_tangent ctx.get_element_type_string with
      | Except.ok _ => Exec.ret self
      | Except.error e => Exec.raise e
    else Exec.ret self
  if is_mulf self.pstype_ then
    let a ← make_shared (ctx.PreStress_ctor ctx.NUMNOD_SOTET10 ctx.NUMGPT_SOTET10)
    Exec.ret { self with prestress_ := some a }
  else Exec.ret self

/-- The copy constructor `SoTet10::SoTet10(const SoTet10& old)`. -/
def SoTet10.copy_ctor (old : SoTet10 D M) : Exec (Heap P) (SoTet10 D M) := do
  let self : SoTet10 D M :=
    { toSoBase := old.toSoBase, detJ_ := old.detJ_, detJ_mass_ := old.detJ_mass_,
      invJ_ := [], invJ_mass_ := [], pstype_ := old.pstype_, pstime_ := old.pstime_,
      time_ := old.time_, prestress_ := none }
  let self := { self with invJ_ := resize self.invJ_ old.invJ_.length 0 }
  let self := (List.range self.invJ_.length).foldl
    (fun (self : SoTet10 D M) i => { self with invJ_ := self.invJ_.set i (old.invJ_.getD i 0) })
    self
  let self := { self with invJ_mass_ := resize self.invJ_mass_ old.invJ_mass_.length 0 }
  let self := (List.range self.invJ_mass_.length).foldl
    (fun (self : SoTet10 D M) i =>
      { self with invJ_mass_ := self.invJ_mass_.set i (old.invJ_mass_.getD i 0) })
    self
  if is_mulf self.pstype_ then
    let p ← deref old.prestress_
    let a ← make_shared p
    Exec.ret { self with prestress_ := some a }
  else Exec.ret self

/-- The routine `SoTet10::clone`. -/
def SoTet10.clone (self : SoTet10 D M) : Exec (Heap P) (SoTet10 D M) :=
  SoTet10.copy_ctor self

/-- The routine `SoTet10::pack`; the heap is only read. The casts `(int)invJ_.size()` are taken
without wrap-around: the arrays hold one entry per integration point. -/
def SoTet10.pack (ctx : Tet10Interface D M P) (heap : Heap P) (self : SoTet10 D M) :
    Exec (PackBuffer D M) Unit := do
  let type := ctx.unique_par_object_id
  add_to_pack_int type
  Exec.update (fun data => data ++ ctx.SoBase_pack self.toSoBase)
  add_to_pack_vector self.detJ_
  add_to_pack_vector self.detJ_mass_
  let size : Int := (self.invJ_.length : Int)
  add_to_pack_int size
  Exec.forLoop (fun i => add_to_pack_matrix (self.invJ_.getD i 0)) 0 size.toNat
  let size_mass : Int := (self.invJ_mass_.length : Int)
  add_to_pack_int size_mass
  Exec.forLoop (fun i => add_to_pack_matrix (self.invJ_mass_.getD i 0)) 0 size_mass.toNat
  add_to_pack_prestress_type self.pstype_
  add_to_pack_double self.pstime_
  add_to_pack_double self.time_
  if is_mulf self.pstype_ then
    match (deref self.prestress_ heap).1 with
    | Except.ok p => add_to_pack_object (ctx.PreStress_pack p)
    | Except.error e => Exec.raise e

/-- A buffer operation inside `unpack`. -/
def on_buffer {α : Type} (x : Exec (UnpackBuffer D M) α) : Exec (Tet10State D M P) α :=
  Exec.focus (fun s => s.buffer) (fun s b => { s with buffer := b }) x

/-- A heap operation inside `unpack`. -/
def on_heap {α : Type} (x : Exec (Heap P) α) : Exec (Tet10State D M P) α :=
  Exec.focus (fun s => s.heap) (fun s h => { s with heap := h }) x

/-- An assignment to the target entity inside `unpack`. -/
def assign (f : SoTet10 D M → SoTet10 D M) : Exec (Tet10State D M P) Unit :=
  Exec.update (fun s => { s with self := f s.self })

/-- The routine `SoTet10::unpack`. -/
def SoTet10.unpack (ctx : Tet10Interface D M P) : Exec (Tet10State D M P) Unit := do
  on_buffer (extract_and_assert_id ctx.unique_par_object_id)
  Exec.focus (fun s => (s.self.toSoBase, s.buffer))
    (fun s t => { s with self := { s.self with toSoBase := t.1 }, buffer := t.2 })
    ctx.SoBase_unpack
  let detJ ← on_buffer extract_vector
  assign (fun self => { self with detJ_ := detJ })
  let detJ_mass ← on_buffer extract_vector
  assign (fun self => { self with detJ_mass_ := detJ_mass })
  let size ← on_buffer extract_int
  if size < 0 then Exec.raise Error.lengthError
  assign (fun self => { self with invJ_ := resize self.invJ_ size.toNat 0 })
  Exec.forLoop (fun i => do
    let m ← on_buffer extract_matrix
    assign (fun self => { self with invJ_ := self.invJ_.set i m })) 0 size.toNat
  let size_mass ← on_buffer extract_int
  if size_mass < 0 then Exec.raise Error.lengthError
  assign (fun self => { self with invJ_mass_ := resize self.invJ_mass_ size_mass.toNat 0 })
  Exec.forLoop (fun i => do
    let m ← on_buffer extract_matrix
    assign (fun self => { self with invJ_mass_ := self.invJ_mass_.set i m })) 0 size_mass.toNat
  let pstype ← on_buffer extract_prestress_type
  assign (fun self => { self with pstype_ := pstype })
  let pstime ← on_buffer extract_double
  assign (fun self => { self with pstime_ := pstime })
  let time ← on_buffer extract_double
  assign (fun self => { self with time_ := time })
  let s ← Exec.read
  if is_mulf s.self.pstype_ then
    let tmpprestress ← on_buffer extract_object
    if s.self.prestress_ = none then
      let a ← on_heap (make_shared (ctx.PreStress_ctor ctx.NUMNOD_SOTET10 ctx.NUMGPT_SOTET10))
      assign (fun self => { self with prestress_ := some a })
    let s ← Exec.read
    on_heap (through_ptr s.self.prestress_ (ctx.PreStress_unpack tmpprestress))

/-- The factory `SoTet10Type::create(UnpackBuffer&)`: a blank instance with placeholder id and
owner, then `unpack`; the object is returned when `unpack` returned. -/
def SoTet10Type.create_from_buffer (ctx : Tet10Interface D M P) (problem : GlobalProblem D) :
    Exec (Heap P × UnpackBuffer D M) (SoTet10 D M) := fun w =>
  match SoTet10.ctor ctx problem (-1) (-1) w.1 with
  | (Except.ok object, heap) =>
    match SoTet10.unpack ctx { heap := heap, self := object, buffer := w.2 } with
    | (Except.ok _, s) => (Except.ok s.self, (s.heap, s.buffer))
    | (Except.error e, s) => (Except.error e, (s.heap, s.buffer))
  | (Except.error e, heap) => (Except.error e, (heap, w.2))

set_option linter.unusedVariables false in
/-- The factory `SoTet10Type::create(eletype, eledistype, id, owner)`; `none` is `nullptr`. -/
def SoTet10Type.create (ctx : Tet10Interface D M P) (problem : GlobalProblem D)
    (eletype eledistype : String) (id owner : Int) : Exec (Heap P) (Option (SoTet10 D M)) := do
  if eletype = ctx.get_element_type_string then
    let ele ← SoTet10.ctor ctx problem id owner
    return some ele
  return none

end Tet10

/-! ## Wire images -/

section Wire

variable {D M P : Type}

/-- A sequence of doubles on the wire: its element count, then its elements. -/
def wire_vector (v : List D) : List (Cell D M) :=
  Cell.int (v.length : Int) :: v.map Cell.double

/-- A sequence of matrices on the wire: its element count, then its elements. -/
def wire_matrices (v : List M) : List (Cell D M) :=
  Cell.int (v.length : Int) :: v.map Cell.matrix

/-- A packed object on the wire: the count of its buffer, then the buffer. -/
def wire_object (packed : List (Cell D M)) : List (Cell D M) :=
  Cell.int (packed.length : Int) :: packed

/-- The cells that `SoTet10.pack` writes ahead of the optional prestress history, in the order
of its statements. -/
def wire_fields (ctx : Tet10Interface D M P) (self : SoTet10 D M) : List (Cell D M) :=
  [Cell.int ctx.unique_par_object_id]
    ++ ctx.SoBase_pack self.toSoBase
    ++ wire_vector self.detJ_
    ++ wire_vector self.detJ_mass_
    ++ wire_matrices self.invJ_
    ++ wire_matrices self.invJ_mass_
    ++ [Cell.prestress_type self.pstype_, Cell.double self.pstime_, Cell.double self.time_]

/-- The field order that the specification lists for the wire format, as a second definition
to compare `SoTet10.pack` with: `[typeTag][baseEntityState][geometryCache(detJ[], invJ[])]`
`[geometryCacheMass(detJ[], invJ[])][prestressType][prestressTime][localTime]`
`[prestressHistory if applicable]`. -/
def spec_field_order (ctx : Tet10Interface D M P) (self : SoTet10 D M) (p : P) :
    List (Cell D M) :=
  [Cell.int ctx.unique_par_object_id]
    ++ ctx.SoBase_pack self.toSoBase
    ++ (wire_vector self.detJ_ ++ wire_matrices self.invJ_)
    ++ (wire_vector self.detJ_mass_ ++ wire_matrices self.invJ_mass_)
    ++ [Cell.prestress_type self.pstype_, Cell.double self.pstime_, Cell.double self.time_]
    ++ (if is_mulf self.pstype_ then wire_object (ctx.PreStress_pack p) else [])

end Wire

/-! ## Parameter lists -/

/-- What an entry of a `Teuchos::ParameterList` holds: a `double`, or a value of another type
(named by a label, as the fiber holder of the material post-setup). -/
inductive ParameterEntry (R : Type) where
  | double (x : R)
  | other (label : String)
  deriving DecidableEq, Repr

/-- A `Teuchos::ParameterList`: named entries in order of insertion. -/
abbrev ParameterList (R : Type) : Type := List (String × ParameterEntry R)

section ParameterListOps

variable {R : Type}

/-- The entry stored under a name, if any. -/
def ParameterList.find (params : ParameterList R) (name : String) : Option (ParameterEntry R) :=
  match params with
  | [] => none
  | (n, v) :: rest => if n = name then some v else ParameterList.find rest name

/-- The call `params.set(name, value)`: replaces the entry of that name or adds one. -/
def ParameterList.set (params : ParameterList R) (name : String) (value : ParameterEntry R) :
    ParameterList R :=
  match params with
  | [] => [(name, value)]
  | (n, v) :: rest =>
    if n = name then (n, value) :: rest else (n, v) :: ParameterList.set rest name value

/-- The call `params.get<double>(name, def)`: the value of the entry; an absent entry is first
created with the default; an entry of another type raises. -/
def ParameterList.get_double (name : String) (default : R) : Exec (ParameterList R) R :=
  fun params =>
    match ParameterList.find params name with
    | some (ParameterEntry.double x) => (Except.ok x, params)
    | some (ParameterEntry.other _) => (Except.error Error.invalidParameterType, params)
    | none => (Except.ok default, ParameterList.set params name (ParameterEntry.double default))

/-- The value a `double` entry holds, or the default when the name has no `double` entry. -/
def ParameterList.double_or (params : ParameterList R) (name : String) (default : R) : R :=
  match ParameterList.find params name with
  | some (ParameterEntry.double x) => x
  | _ => default

end ParameterListOps

/-! ## The SoHex27 multiscale routines -/

/-- The material kinds that the element code tells apart, `Core::Materials::MaterialType`. -/
inductive MaterialType where
  | m_struct_multiscale
  | m_other
  deriving DecidableEq, Repr

/-- The capability surface of the bound material: its kind and its density per integration
point. -/
structure Material (R : Type) where
  material_type : MaterialType
  density : Nat → R

/-- A call made on the bound material, in the order made. -/
inductive MaterialCall where
  /-- The call `material()->density(gp)`. -/
  | density (gp : Nat)
  /-- The call `micro->read_restart(gp, eleID, eleowner)`. -/
  | read_restart (gp : Nat) (eleID : Int) (eleowner : Bool)
  deriving DecidableEq, Repr

/-- The data members of `Discret::Elements::SoHex27` that the multiscale routines read. -/
structure SoHex27 (R : Type) extends SoBase where
  detJ_ : List R
  material : Material R

/-- Declarations of `4C_so3_hex27.hpp` that are not among the translated sources, taken as
parameters: the number of integration points and the table of integration weights. -/
structure Hex27Interface (R : Type) where
  NUMGPT_SOH27 : Nat
  soh27_weights : List R

/-- The ranks of this process, `Core::Communication::my_mpi_rank`, in the two communicators
that the routines consult. -/
structure Communicators where
  /-- Rank in `Global::Problem::instance(0)->get_communicators()->sub_comm()`. -/
  sub_comm : Int
  /-- Rank in `Global::Problem::instance()->get_dis("structure")->get_comm()`. -/
  structure_comm : Int

/-- What `soh27_homog` acts on: the parameter list and the log of calls on the material. -/
structure HomogState (R : Type) where
  params : ParameterList R
  calls : List MaterialCall

section Hex27

variable {R : Type} [Zero R] [Add R] [Mul R]

/-- The routine `SoHex27::soh27_homog`. Reads of `detJ_[gp]` and `weights[gp]` past the end do
not occur for an element whose arrays have `NUMGPT_SOH27` entries. -/
def SoHex27.soh27_homog (ctx : Hex27Interface R) (comm : Communicators) (self : SoHex27 R) :
    Exec (HomogState R) Unit := do
  if comm.sub_comm = self.owner then
    let homogdens : R := 0
    let weights := ctx.soh27_weights
    let (homogdens, queried) := (List.range ctx.NUMGPT_SOH27).foldl
      (fun (acc : R × List MaterialCall) gp =>
        let density := self.material.density gp
        (acc.1 + self.detJ_.getD gp 0 * weights.getD gp 0 * density,
          acc.2 ++ [MaterialCall.density gp]))
      (homogdens, [])
    Exec.update (fun s => { s with calls := s.calls ++ queried })
    let homogdensity ← Exec.focus (fun s => s.params) (fun s q => { s with params := q })
      (ParameterList.get_double "homogdens" 0)
    Exec.update (fun s => { s with
      params := ParameterList.set s.params "homogdens"
        (ParameterEntry.double (homogdensity + homogdens)) })

/-- The routine `SoHex27::soh27_read_restart_multi`, acting on the log of calls on the
material. -/
def SoHex27.soh27_read_restart_multi (ctx : Hex27Interface R) (comm : Communicators)
    (self : SoHex27 R) : Exec (List MaterialCall) Unit := do
  let mat := self.material
  if mat.material_type = MaterialType.m_struct_multiscale then
    let eleID := self.id
    let eleowner : Bool := if comm.structure_comm = self.owner then true else false
    Exec.forLoop (fun gp =>
      Exec.update (fun calls => calls ++ [MaterialCall.read_restart gp eleID eleowner]))
      0 ctx.NUMGPT_SOH27

/-- The sum of `term gp` over `gp = 0, ..., n - 1`, accumulated from zero in index order. -/
def ordered_sum (n : Nat) (term : Nat → R) : R :=
  (List.range n).foldl (fun acc gp => acc + term gp) 0

end Hex27

/-- A two-point integration scheme with weights `0.5` and `0.25`. -/
def exHexCtx : Hex27Interface ℚ where
  NUMGPT_SOH27 := 2
  soh27_weights := [1 / 2, 1 / 4]

/-- An entity owned by rank 0 with `detJ = [2.0, 1.0]` whose multiscale material has the
micro-scale densities `[3.0, 4.0]`. -/
def exHex : SoHex27 ℚ where
  id := 12
  owner := 0
  detJ_ := [2, 1]
  material :=
    { material_type := MaterialType.m_struct_multiscale, density := fun gp => [3, 4].getD gp 0 }

/-- The same entity bound to a material that is not of the multiscale kind. -/
def exHexPlain : SoHex27 ℚ :=
  { exHex with material := { exHex.material with material_type := MaterialType.m_other } }

/-- A four-point integration scheme. -/
def exHexCtx4 : Hex27Interface ℚ where
  NUMGPT_SOH27 := 4
  soh27_weights := [1, 1, 1, 1]

/-- The process of rank 0 in both communicators. -/
def exRank0 : Communicators := { sub_comm := 0, structure_comm := 0 }

/-- The process of rank 1 in both communicators. -/
def exRank1 : Communicators := { sub_comm := 1, structure_comm := 1 }

/-! ## Round-trip assumptions and the last block of `unpack` -/

section Assumptions

variable {D M P : Type}

/-- The base class serialization round-trips: `SoBase::unpack` on what `SoBase::pack` wrote
restores the packed base state and consumes exactly these cells. -/
def SoBase_round_trip (ctx : Tet10Interface D M P) : Prop :=
  ∀ (b0 b : SoBase) (rest : UnpackBuffer D M),
    ctx.SoBase_unpack (b0, ctx.SoBase_pack b ++ rest) = (Except.ok (), (b, rest))

/-- The prestress object round-trips: `PreStress::unpack` on what `PreStress::pack` wrote
restores the packed object, whatever the target held. -/
def PreStress_round_trip (ctx : Tet10Interface D M P) : Prop :=
  ∀ (q p : P), ctx.PreStress_unpack (ctx.PreStress_pack p) q = (Except.ok (), p)

/-- The last block of `SoTet10.unpack`, from the test of the prestress type on. -/
def unpack_prestress_block (ctx : Tet10Interface D M P) : Exec (Tet10State D M P) Unit := do
  let s ← Exec.read
  if is_mulf s.self.pstype_ then
    let tmpprestress ← on_buffer extract_object
    if s.self.prestress_ = none then
      let a ← on_heap (make_shared (ctx.PreStress_ctor ctx.NUMNOD_SOTET10 ctx.NUMGPT_SOTET10))
      assign (fun self => { self with prestress_ := some a })
    let s ← Exec.read
    on_heap (through_ptr s.self.prestress_ (ctx.PreStress_unpack tmpprestress))

end Assumptions

/-! ## A concrete instance -/

section Example

/-- Doubles of the concrete instance: exact rationals. -/
abbrev ExDouble : Type := ℚ

/-- Matrices of the concrete instance: `NUMDIM_SOTET10 = 3`. -/
abbrev ExMatrix : Type := Fin 3 → Fin 3 → ℚ

/-- Prestress objects of the concrete instance: a history of one value per integration point. -/
abbrev ExPreStress : Type := List ℚ

/-- A base class serialization writing the id and the owner. -/
def exSoBase_unpack : Exec (SoBase × UnpackBuffer ExDouble ExMatrix) Unit := fun w =>
  match w.2 with
  | Cell.int id :: Cell.int owner :: rest => (Except.ok (), ({ id := id, owner := owner }, rest))
  | _ => (Except.error Error.protocolMismatch, w)

/-- A prestress serialization reading the history as one sequence. -/
def exPreStress_unpack (buffer : UnpackBuffer ExDouble ExMatrix) : Exec ExPreStress Unit :=
  fun q =>
    match extract_vector buffer with
    | (Except.ok v, _) => (Except.ok (), v)
    | (Except.error e, _) => (Except.error e, q)

/-- The concrete instance: ten nodes, four stiffness and eleven mass integration points. -/
def exCtx : Tet10Interface ExDouble ExMatrix ExPreStress where
  NUMNOD_SOTET10 := 10
  NUMGPT_SOTET10 := 4
  NUMGPT_MASS_SOTET10 := 11
  unique_par_object_id := 77
  get_element_type_string := "SOLIDT10"
  SoBase_pack := fun b => [Cell.int b.id, Cell.int b.owner]
  SoBase_unpack := exSoBase_unpack
  PreStress_ctor := fun _ ngp => List.replicate ngp 0
  PreStress_pack := fun p => wire_vector p
  PreStress_unpack := exPreStress_unpack

/-- A run without prestress and without a finite-difference tangent check. -/
def exProblemNone : GlobalProblem ExDouble where
  get_parameter_list := true
  get_type := PreStressType.none
  get_prestress_time := 0
  throw_error_fd_material_tangent := fun _ => Except.ok ()

/-- A run in MULF mode with prestress time 1. -/
def exProblemMulf : GlobalProblem ExDouble where
  get_parameter_list := true
  get_type := PreStressType.mulf
  get_prestress_time := 1
  throw_error_fd_material_tangent := fun _ => Except.ok ()

/-- The blank instance that the constructor makes without prestress. -/
def exBlank : SoTet10 ExDouble ExMatrix where
  id := -1
  owner := -1
  detJ_ := List.replicate 4 0
  detJ_mass_ := List.replicate 11 0
  invJ_ := List.replicate 4 0
  invJ_mass_ := List.replicate 11 0
  pstype_ := PreStressType.none
  pstime_ := 0
  time_ := 0
  prestress_ := none

/-- The blank instance that the constructor makes in MULF mode on an empty heap. -/
def exBlankMulf : SoTet10 ExDouble ExMatrix :=
  { exBlank with pstype_ := PreStressType.mulf, pstime_ := 1, prestress_ := some 0 }

/-- An entity with id 5 on rank 2, evaluated geometry and no prestress. -/
def exEntity : SoTet10 ExDouble ExMatrix where
  id := 5
  owner := 2
  detJ_ := [1, 2, 3, 4]
  detJ_mass_ := List.replicate 11 (1 / 2)
  invJ_ := List.replicate 4 (fun i j => if i = j then 1 else 0)
  invJ_mass_ := List.replicate 11 (fun i j => if i = j then 2 else 0)
  pstype_ := PreStressType.none
  pstime_ := 0
  time_ := 3
  prestress_ := none

/-- The same entity in MULF mode, its prestress object at address 0. -/
def exEntityMulf : SoTet10 ExDouble ExMatrix :=
  { exEntity with pstype_ := PreStressType.mulf, pstime_ := 1, prestress_ := some 0 }

/-- A heap whose only object is a non-empty prestress history. -/
def exHeap : Heap ExPreStress := [[7, 8, 9, 10]]

end Example

/-! ## Material post-setup, visualization and null-space metadata of SoTet10 -/

section Tet10Services

variable {D M P N : Type}

/-- The call `params.remove(name, false)`: the entry of that name is dropped and a missing
entry is not an error. The names of a `Teuchos::ParameterList` are unique, so dropping every
entry of the name drops the one there is. -/
def ParameterList.remove (params : ParameterList D) (name : String) : ParameterList D :=
  match params with
  | [] => []
  | (n, v) :: rest =>
    if n = name then ParameterList.remove rest name else (n, v) :: ParameterList.remove rest name

/-- What `SoTet10::material_post_setup` uses from outside the translated sources, taken as
parameters: the test for nodal fibers, the interpolation of the fibers to the integration
points (its result, the `NodalFiberHolder`, is named by a label) and the post-setup of the
base class, a routine on the parameter list. -/
structure PostSetupInterface (D N : Type) where
  have_nodal_fibers : N → Bool
  project_fibers_to_gauss_points : N → String
  SoBase_material_post_setup : Exec (ParameterList D) Unit

/-- The routine `SoTet10::material_post_setup` for an element with the given nodes. -/
def SoTet10.material_post_setup (post : PostSetupInterface D N) (nodes : N) :
    Exec (ParameterList D) Unit := do
  if post.have_nodal_fibers nodes then
    let fiberHolder := post.project_fibers_to_gauss_points nodes
    Exec.update (fun params =>
      ParameterList.set params "fiberholder" (ParameterEntry.other fiberHolder))
  post.SoBase_material_post_setup
  Exec.update (fun params => ParameterList.remove params "fiberholder")

/-- A call made while visualization data is collected, in the order made. -/
inductive VisCall where
  /-- The call `Core::Elements::Element::vis_data(name, data)`. -/
  | element_vis_data (name : String)
  /-- The call `solid_material()->vis_data(name, data, numgp, eleID)`. -/
  | material_vis_data (name : String) (numgp : Nat) (eleID : Int)
  /-- A report of the attribute names of the entity itself. -/
  | element_vis_names
  /-- The call `solid_material()->vis_names(names)`. -/
  | material_vis_names
  deriving DecidableEq, Repr

/-- What the visualization routines use from outside the translated sources, taken as
parameters: the base class answer for a name (recognized or not, and the data it leaves), the
attribute names of the entity itself, and the two routines of the material. -/
structure VisInterface (D : Type) where
  Element_vis_data : SoBase → String → List D → Bool × List D
  Element_vis_names : List (String × Int) → List (String × Int)
  Material_vis_names : List (String × Int) → List (String × Int)
  Material_vis_data : String → List D → Nat → Int → Bool × List D

/-- What the visualization routines act on: the output vector, the map of names and the log
of calls. -/
structure VisState (D : Type) where
  data : List D
  names : List (String × Int)
  calls : List VisCall

/-- The routine `SoTet10::vis_names`. -/
def SoTet10.vis_names (vis : VisInterface D) : Exec (VisState D) Unit := do
  Exec.update (fun s =>
    { s with names := vis.Material_vis_names s.names,
             calls := s.calls ++ [VisCall.material_vis_names] })
  return

/-- The wording of the specification for `visNames`, as a second definition to compare
`SoTet10.vis_names` with: the attributes of the entity itself first, the material second. -/
def vis_names_spec (vis : VisInterface D) : Exec (VisState D) Unit := do
  Exec.update (fun s =>
    { s with names := vis.Element_vis_names s.names,
             calls := s.calls ++ [VisCall.element_vis_names] })
  Exec.update (fun s =>
    { s with names := vis.Material_vis_names s.names,
             calls := s.calls ++ [VisCall.material_vis_names] })

/-- The routine `SoTet10::vis_data`. -/
def SoTet10.vis_data (ctx : Tet10Interface D M P) (vis : VisInterface D) (self : SoTet10 D M)
    (name : String) : Exec (VisState D) Bool := do
  let recognized ← (fun s =>
    (Except.ok (vis.Element_vis_data self.toSoBase name s.data).1,
      { s with data := (vis.Element_vis_data self.toSoBase name s.data).2,
               calls := s.calls ++ [VisCall.element_vis_data name] }) : Exec (VisState D) Bool)
  if recognized then return true
  (fun s =>
    (Except.ok (vis.Material_vis_data name s.data ctx.NUMGPT_SOTET10 self.id).1,
      { s with data := (vis.Material_vis_data name s.data ctx.NUMGPT_SOTET10 self.id).2,
               calls := s.calls ++
                 [VisCall.material_vis_data name ctx.NUMGPT_SOTET10 self.id] }) :
    Exec (VisState D) Bool)

/-- The output arguments `numdf`, `dimns`, `nv`, `np` of `nodal_block_information`. -/
structure BlockInformation where
  numdf : Int
  dimns : Int
  nv : Int
  np : Int
  deriving DecidableEq, Repr

set_option linter.unusedVariables false in
/-- The routine `SoTet10Type::nodal_block_information`; `none` is a null element pointer. -/
def SoTet10Type.nodal_block_information (dwele : Option (SoTet10 D M)) :
    Exec BlockInformation Unit := do
  Exec.update (fun out => { out with numdf := 3 })
  Exec.update (fun out => { out with dimns := 6 })
  Exec.update (fun out => { out with nv := 3 })

/-- The invariant of the geometry cache: each array has one entry per integration point of
its scheme. -/
def geometry_cache_invariant (ctx : Tet10Interface D M P) (e : SoTet10 D M) : Prop :=
  e.detJ_.length = ctx.NUMGPT_SOTET10 ∧ e.invJ_.length = ctx.NUMGPT_SOTET10 ∧
    e.detJ_mass_.length = ctx.NUMGPT_MASS_SOTET10 ∧ e.invJ_mass_.length = ctx.NUMGPT_MASS_SOTET10

end Tet10Services

namespace Exec

variable {σ α β : Type}

/-- A routine keeps an observation of the state, whether it returns or throws. -/
def Keeps (obs : σ → β) (x : Exec σ α) : Prop :=
  ∀ s, obs (x s).2 = obs s

/-- Every normal return of the routine from a state with `pre` ends in a state with `post`. -/
def Ensures (pre : σ → Prop) (x : Exec σ α) (post : σ → Prop) : Prop :=
  ∀ s a t, pre s → x s = (Except.ok a, t) → post t

end Exec

/-- Nodes of the concrete instance: the fiber direction each node carries, if any. -/
abbrev ExNodes : Type := List (Option String)

/-- A post-setup of the base class that records, under `"seen"`, the fiber holder it found. -/
def exSoBase_material_post_setup : Exec (ParameterList ExDouble) Unit := fun params =>
  match ParameterList.find params "fiberholder" with
  | some v => (Except.ok (), ParameterList.set params "seen" v)
  | none => (Except.ok (), params)

/-- The concrete instance of the post-setup collaborators. -/
def exPost : PostSetupInterface ExDouble ExNodes where
  have_nodal_fibers := fun nodes => nodes.all Option.isSome
  project_fibers_to_gauss_points := fun _ => "fibers at 4 gp"
  SoBase_material_post_setup := exSoBase_material_post_setup

/-- Ten nodes that all carry a fiber direction. -/
def exFiberNodes : ExNodes := List.replicate 10 (some "e1")

/-- Ten nodes without fiber data. -/
def exPlainNodes : ExNodes := List.replicate 10 none

/-- The concrete instance of the visualization collaborators: the base class recognizes
`"Owner"`, the material recognizes `"density"`. -/
def exVis : VisInterface ExDouble where
  Element_vis_data := fun base name data =>
    if name = "Owner" then (true, [(base.owner : ℚ)]) else (false, data)
  Element_vis_names := fun names => names ++ [("Owner", 1)]
  Material_vis_names := fun names => names ++ [("density", 1)]
  Material_vis_data := fun name data _ _ =>
    if name = "density" then (true, [1]) else (false, data)

/-- A buffer with the tag and base state of the concrete instance whose four element counts
are all zero. -/
def exEmptyCountsBuffer : UnpackBuffer ExDouble ExMatrix :=
  [Cell.int 77, Cell.int 5, Cell.int 2, Cell.int 0, Cell.int 0, Cell.int 0, Cell.int 0,
    Cell.prestress_type PreStressType.none, Cell.double 0, Cell.double 0]

/-! ## Mutations after a copy -/

section Mutations

variable {D M P : Type}

/-- The prestress object an entity reaches through its pointer, if any. -/
def prestress_object (heap : Heap P) (e : SoTet10 D M) : Option P :=
  match e.prestress_ with
  | some a => heap[a]?
  | none => none

/-- A later mutation of the geometry cache or of the prestress state of an entity: an
assignment to one entry of one of the four arrays, or a write to the prestress object through
the pointer of the entity. -/
inductive Mutation (D M P : Type) where
  | detJ (i : Nat) (x : D)
  | detJ_mass (i : Nat) (x : D)
  | invJ (i : Nat) (m : M)
  | invJ_mass (i : Nat) (m : M)
  | prestress (q : P)

/-- Two entities over one heap: the one that is mutated and the one that stands by. -/
structure AliasWorld (D M P : Type) where
  heap : Heap P
  bystander : SoTet10 D M
  target : SoTet10 D M

/-- One mutation of the target: an assignment to an array member of the target, or a write
through `prestress_` of the target, which is an error when the pointer is null or dangling. -/
def mutate (m : Mutation D M P) : Exec (AliasWorld D M P) Unit :=
  match m with
  | Mutation.detJ i x =>
    Exec.update (fun w => { w with target := { w.target with detJ_ := w.target.detJ_.set i x } })
  | Mutation.detJ_mass i x =>
    Exec.update (fun w =>
      { w with target := { w.target with detJ_mass_ := w.target.detJ_mass_.set i x } })
  | Mutation.invJ i m =>
    Exec.update (fun w => { w with target := { w.target with invJ_ := w.target.invJ_.set i m } })
  | Mutation.invJ_mass i m =>
    Exec.update (fun w =>
      { w with target := { w.target with invJ_mass_ := w.target.invJ_mass_.set i m } })
  | Mutation.prestress q => fun w =>
    ((through_ptr w.target.prestress_ (Exec.update (fun _ => q)) w.heap).1,
      { w with heap := (through_ptr w.target.prestress_ (Exec.update (fun _ => q)) w.heap).2 })

/-- A sequence of mutations of the target, stopped by the first error. -/
def mutate_all : List (Mutation D M P) → Exec (AliasWorld D M P) Unit
  | [] => Exec.ret ()
  | m :: ms => Exec.andThen (mutate m) (fun _ => mutate_all ms)

end Mutations

/-- A run whose input asks for the finite-difference check of the material tangent, which the
check made by the constructor rejects for this element. -/
def exProblemFD : GlobalProblem ExDouble where
  get_parameter_list := true
  get_type := PreStressType.none
  get_prestress_time := 0
  throw_error_fd_material_tangent := fun _ => Except.error Error.fdMaterialTangent

/-! ## Lemmas on throwing computations -/

namespace Exec

variable {σ τ α β : Type}

theorem bind_def (x : Exec σ α) (f : α → Exec σ β) : x >>= f = andThen x f := rfl

theorem pure_def (a : α) : (pure a : Exec σ α) = ret a := rfl

theorem andThen_apply (x : Exec σ α) (f : α → Exec σ β) (s : σ) :
    andThen x f s =
      match x s with
      | (Except.ok a, s1) => f a s1
      | (Except.error e, s1) => (Except.error e, s1) := rfl

theorem ret_apply (a : α) (s : σ) : ret a s = (Except.ok a, s) := rfl

theorem raise_apply (e : Error) (s : σ) : (raise e : Exec σ α) s = (Except.error e, s) := rfl

theorem read_apply (s : σ) : (read : Exec σ σ) s = (Except.ok s, s) := rfl

theorem update_apply (f : σ → σ) (s : σ) : update f s = (Except.ok (), f s) := rfl

theorem focus_apply (get : σ → τ) (set : σ → τ → σ) (x : Exec τ α) (s : σ) :
    focus get set x s = ((x (get s)).1, set s (x (get s)).2) := rfl

theorem andThen_ok {x : Exec σ α} {f : α → Exec σ β} {s : σ} (a : α) (t : σ)
    (h : x s = (Except.ok a, t)) : andThen x f s = f a t := by
  simp [andThen, h]

end Exec

/-! ## Lemmas on the buffer helpers -/

section HelperLemmas

variable {D M : Type}

theorem extract_doubles_append (v : List D) (acc : List D) (rest : UnpackBuffer D M) :
    extract_doubles v.length acc (v.map Cell.double ++ rest) = (Except.ok (acc ++ v), rest) := by
  induction v generalizing acc with
  | nil => simp [extract_doubles, Exec.ret]
  | cons d v ih =>
    simp only [List.length_cons, extract_doubles, List.map_cons, List.cons_append]
    rw [Exec.andThen_ok d (v.map Cell.double ++ rest) (by simp [extract_double])]
    rw [ih]
    simp

theorem extract_vector_wire (v : List D) (rest : UnpackBuffer D M) :
    extract_vector (Cell.int (v.length : Int) :: (v.map Cell.double ++ rest))
      = (Except.ok v, rest) := by
  unfold extract_vector
  rw [Exec.andThen_ok (v.length : Int) (v.map Cell.double ++ rest)
    (by simp [extract_int])]
  have h := extract_doubles_append v [] rest
  simpa using h

theorem extract_object_wire (packed rest : UnpackBuffer D M) :
    extract_object (Cell.int (packed.length : Int) :: (packed ++ rest))
      = (Except.ok packed, rest) := by
  unfold extract_object
  rw [Exec.andThen_ok (packed.length : Int) (packed ++ rest)
    (by simp [extract_int])]
  simp

theorem pack_matrices_loop [Zero M] (v : List M) :
    ∀ (k i : Nat) (data : PackBuffer D M), i + k = v.length →
      Exec.forLoop (fun j => add_to_pack_matrix (v.getD j 0)) i k data
        = (Except.ok (), data ++ (v.drop i).map Cell.matrix) := by
  intro k
  induction k with
  | zero =>
    intro i data h
    have hi : v.length ≤ i := by omega
    simp [Exec.forLoop, Exec.ret, List.drop_eq_nil_of_le hi]
  | succ k ih =>
    intro i data h
    have hi : i < v.length := by omega
    simp only [Exec.forLoop]
    rw [Exec.andThen_ok () (data ++ [Cell.matrix (v.getD i 0)])
      (by simp [add_to_pack_matrix, Exec.update])]
    have hd : v.drop i = v[i] :: v.drop (i + 1) := List.drop_eq_getElem_cons hi
    rw [ih (i + 1) _ (by omega), hd]
    simp only [List.map_cons, List.append_assoc, List.singleton_append,
      List.getD_eq_getElem?_getD, List.getElem?_eq_getElem hi, Option.getD_some]

theorem pack_matrices_all [Zero M] (v : List M) (data : PackBuffer D M) :
    Exec.forLoop (fun j => add_to_pack_matrix (v.getD j 0)) 0 (v.length : Int).toNat data
      = (Except.ok (), data ++ v.map Cell.matrix) := by
  have h := pack_matrices_loop v v.length 0 data (by simp)
  simpa using h

theorem pack_matrices_all_norm [Zero M] (v : List M) (data : PackBuffer D M) :
    Exec.forLoop (fun j => add_to_pack_matrix (v[j]?.getD 0)) 0 v.length data
      = (Except.ok (), data ++ v.map Cell.matrix) := by
  have h := pack_matrices_all v data
  simpa using h

end HelperLemmas

/-! ## What `pack` writes -/

section PackLemmas

variable {D M P : Type}

theorem pack_run [Zero M] (ctx : Tet10Interface D M P) (heap : Heap P) (e : SoTet10 D M)
    (data : PackBuffer D M) :
    SoTet10.pack ctx heap e data =
      if is_mulf e.pstype_ then
        match (deref e.prestress_ heap).1 with
        | Except.ok p =>
          (Except.ok (), data ++ wire_fields ctx e ++ wire_object (ctx.PreStress_pack p))
        | Except.error err => (Except.error err, data ++ wire_fields ctx e)
      else (Except.ok (), data ++ wire_fields ctx e) := by
  by_cases hm : is_mulf e.pstype_ = true
  · cases hd : (deref e.prestress_ heap).1 <;>
      simp [SoTet10.pack, Exec.bind_def, Exec.andThen, add_to_pack_int, add_to_pack_vector,
        add_to_pack_prestress_type, add_to_pack_double, Exec.update, pack_matrices_all_norm,
        add_to_pack_object, Exec.raise, wire_fields, wire_vector, wire_matrices, wire_object,
        hm, hd]
  · simp [SoTet10.pack, Exec.bind_def, Exec.andThen, add_to_pack_int, add_to_pack_vector,
      add_to_pack_prestress_type, add_to_pack_double, Exec.update, pack_matrices_all_norm,
      Exec.pure_def, Exec.ret, wire_fields, wire_vector, wire_matrices, hm]

end PackLemmas

/-! ## What `unpack` reads -/

section UnpackLemmas

variable {D M P : Type}

theorem take_succ_set {α : Type} (l : List α) (i : Nat) (a : α) (h : i < l.length) :
    (l.set i a).take (i + 1) = l.take i ++ [a] := by
  induction l generalizing i with
  | nil => simp at h
  | cons x l ih =>
    cases i with
    | zero => simp
    | succ i => simpa using ih i (by simpa using h)

theorem unpack_invJ_loop (ms : List M) :
    ∀ (i : Nat) (s : Tet10State D M P) (rest : UnpackBuffer D M),
      s.buffer = ms.map Cell.matrix ++ rest → i + ms.length = s.self.invJ_.length →
      Exec.forLoop (fun i => do
          let m ← on_buffer extract_matrix
          assign (fun self => { self with invJ_ := self.invJ_.set i m })) i ms.length s
        = (Except.ok (),
            { s with self := { s.self with invJ_ := s.self.invJ_.take i ++ ms }, buffer := rest }) := by
  induction ms with
  | nil =>
    intro i s rest hb hl
    have hl2 : s.self.invJ_.length ≤ i := by simp at hl; omega
    cases s
    simp_all [Exec.forLoop, Exec.ret, List.take_of_length_le hl2]
  | cons m ms ih =>
    intro i s rest hb hl
    have hi : i < s.self.invJ_.length := by simp at hl; omega
    simp only [List.length_cons, Exec.forLoop]
    rw [Exec.andThen_ok ()
      ({ s with self := { s.self with invJ_ := s.self.invJ_.set i m },
                      buffer := ms.map Cell.matrix ++ rest } : Tet10State D M P)
      (by simp [Exec.bind_def, Exec.andThen, on_buffer, Exec.focus, extract_matrix, hb, assign,
            Exec.update])]
    rw [ih (i + 1) _ rest rfl (by simp at hl ⊢; omega)]
    simp [take_succ_set _ _ _ hi]

theorem unpack_invJ_mass_loop (ms : List M) :
    ∀ (i : Nat) (s : Tet10State D M P) (rest : UnpackBuffer D M),
      s.buffer = ms.map Cell.matrix ++ rest → i + ms.length = s.self.invJ_mass_.length →
      Exec.forLoop (fun i => do
          let m ← on_buffer extract_matrix
          assign (fun self => { self with invJ_mass_ := self.invJ_mass_.set i m })) i ms.length s
        = (Except.ok (),
            { s with self := { s.self with invJ_mass_ := s.self.invJ_mass_.take i ++ ms },
                     buffer := rest }) := by
  induction ms with
  | nil =>
    intro i s rest hb hl
    have hl2 : s.self.invJ_mass_.length ≤ i := by simp at hl; omega
    cases s
    simp_all [Exec.forLoop, Exec.ret, List.take_of_length_le hl2]
  | cons m ms ih =>
    intro i s rest hb hl
    have hi : i < s.self.invJ_mass_.length := by simp at hl; omega
    simp only [List.length_cons, Exec.forLoop]
    rw [Exec.andThen_ok ()
      ({ s with self := { s.self with invJ_mass_ := s.self.invJ_mass_.set i m },
                      buffer := ms.map Cell.matrix ++ rest } : Tet10State D M P)
      (by simp [Exec.bind_def, Exec.andThen, on_buffer, Exec.focus, extract_matrix, hb, assign,
            Exec.update])]
    rw [ih (i + 1) _ rest rfl (by simp at hl ⊢; omega)]
    simp [take_succ_set _ _ _ hi]

theorem length_resize {α : Type} (v : List α) (n : Nat) (fill : α) :
    (resize v n fill).length = n := by
  simp [resize]
  omega

theorem on_buffer_apply {α : Type} (x : Exec (UnpackBuffer D M) α) (s : Tet10State D M P) :
    on_buffer x s = ((x s.buffer).1, { s with buffer := (x s.buffer).2 }) := rfl

theorem on_heap_apply {α : Type} (x : Exec (Heap P) α) (s : Tet10State D M P) :
    on_heap x s = ((x s.heap).1, { s with heap := (x s.heap).2 }) := rfl

theorem assign_apply (f : SoTet10 D M → SoTet10 D M) (s : Tet10State D M P) :
    assign f s = (Except.ok (), { s with self := f s.self }) := rfl

theorem unpack_invJ_all (heap : Heap P) (t : SoTet10 D M) (ms : List M)
    (rest : UnpackBuffer D M) (h : t.invJ_.length = ms.length) :
    Exec.forLoop (fun i => Exec.andThen (on_buffer extract_matrix) (fun m =>
          assign (fun self => { self with invJ_ := self.invJ_.set i m }))) 0 ms.length
        ({ heap := heap, self := t, buffer := ms.map Cell.matrix ++ rest } : Tet10State D M P)
      = (Except.ok (), { heap := heap, self := { t with invJ_ := ms }, buffer := rest }) := by
  have h1 := unpack_invJ_loop ms 0
    ({ heap := heap, self := t, buffer := ms.map Cell.matrix ++ rest } : Tet10State D M P)
    rest rfl (by simp [h])
  simpa [Exec.bind_def] using h1

theorem unpack_invJ_mass_all (heap : Heap P) (t : SoTet10 D M) (ms : List M)
    (rest : UnpackBuffer D M) (h : t.invJ_mass_.length = ms.length) :
    Exec.forLoop (fun i => Exec.andThen (on_buffer extract_matrix) (fun m =>
          assign (fun self => { self with invJ_mass_ := self.invJ_mass_.set i m }))) 0 ms.length
        ({ heap := heap, self := t, buffer := ms.map Cell.matrix ++ rest } : Tet10State D M P)
      = (Except.ok (), { heap := heap, self := { t with invJ_mass_ := ms }, buffer := rest }) := by
  have h1 := unpack_invJ_mass_loop ms 0
    ({ heap := heap, self := t, buffer := ms.map Cell.matrix ++ rest } : Tet10State D M P)
    rest rfl (by simp [h])
  simpa [Exec.bind_def] using h1

theorem unpack_fields_run [Zero M] (ctx : Tet10Interface D M P) (hbase : SoBase_round_trip ctx)
    (heap : Heap P) (t e : SoTet10 D M) (tl : UnpackBuffer D M) :
    SoTet10.unpack ctx { heap := heap, self := t, buffer := wire_fields ctx e ++ tl }
      = unpack_prestress_block ctx
          { heap := heap, self := { e with prestress_ := t.prestress_ }, buffer := tl } := by
  have h1 : ¬ ((e.invJ_.length : Int) < 0) := by omega
  have h2 : ¬ ((e.invJ_mass_.length : Int) < 0) := by omega
  unfold SoTet10.unpack unpack_prestress_block
  simp only [Exec.bind_def]
  simp [Exec.andThen_apply, on_buffer_apply, assign_apply, Exec.focus_apply,
    extract_and_assert_id, extract_int, wire_fields,
    wire_vector, wire_matrices, hbase _ _ _, extract_vector_wire, Exec.ret_apply,
    Exec.raise_apply, Exec.read_apply, Exec.pure_def, unpack_invJ_all, unpack_invJ_mass_all,
    length_resize, extract_prestress_type, extract_double, h1, h2]

theorem unpack_prestress_block_inactive (ctx : Tet10Interface D M P) (s : Tet10State D M P)
    (h : is_mulf s.self.pstype_ = false) :
    unpack_prestress_block ctx s = (Except.ok (), s) := by
  simp [unpack_prestress_block, Exec.bind_def, Exec.andThen_apply, Exec.read_apply, h,
    Exec.pure_def, Exec.ret_apply]

theorem unpack_prestress_block_null (ctx : Tet10Interface D M P) (hpre : PreStress_round_trip ctx)
    (heap : Heap P) (t : SoTet10 D M) (p : P) (rest : UnpackBuffer D M)
    (h : is_mulf t.pstype_ = true) (hnull : t.prestress_ = none) :
    unpack_prestress_block ctx
        { heap := heap, self := t, buffer := wire_object (ctx.PreStress_pack p) ++ rest }
      = (Except.ok (),
          { heap := heap ++ [p], self := { t with prestress_ := some heap.length },
            buffer := rest }) := by
  simp [unpack_prestress_block, Exec.bind_def, Exec.andThen_apply, Exec.read_apply, h, hnull,
    on_buffer_apply, on_heap_apply, assign_apply, wire_object, extract_object_wire, make_shared,
    through_ptr, hpre _ _]

theorem unpack_prestress_block_present (ctx : Tet10Interface D M P)
    (hpre : PreStress_round_trip ctx) (heap : Heap P) (t : SoTet10 D M) (p : P)
    (rest : UnpackBuffer D M) (b : Nat)
    (h : is_mulf t.pstype_ = true) (hsome : t.prestress_ = some b) (hb : b < heap.length) :
    unpack_prestress_block ctx
        { heap := heap, self := t, buffer := wire_object (ctx.PreStress_pack p) ++ rest }
      = (Except.ok (), { heap := heap.set b p, self := t, buffer := rest }) := by
  simp [unpack_prestress_block, Exec.bind_def, Exec.andThen_apply, Exec.read_apply, h, hsome,
    on_buffer_apply, on_heap_apply, wire_object, extract_object_wire, Exec.pure_def,
    Exec.ret_apply, through_ptr, List.getElem?_eq_getElem hb, hpre _ _]

end UnpackLemmas

/-! ## Facts on the concrete instance -/

theorem exCtx_base_round_trip : SoBase_round_trip exCtx := by
  intro b0 b rest
  rfl

theorem exCtx_prestress_round_trip : PreStress_round_trip exCtx := by
  intro q p
  show exPreStress_unpack (wire_vector p) q = (Except.ok (), p)
  have h := extract_vector_wire (M := ExMatrix) p []
  simp only [List.append_nil] at h
  simp [exPreStress_unpack, wire_vector, h]

theorem exBlank_ctor :
    SoTet10.ctor exCtx exProblemNone (-1) (-1) ([] : Heap ExPreStress) = (Except.ok exBlank, []) := by
  rfl

theorem exBlankMulf_ctor :
    SoTet10.ctor exCtx exProblemMulf (-1) (-1) ([] : Heap ExPreStress)
      = (Except.ok exBlankMulf, [List.replicate 4 0]) := by
  rfl

/-! ## The constructor -/

section CtorLemmas

variable {D M P : Type}

theorem ctor_returned [Zero D] [Zero M] (ctx : Tet10Interface D M P) (problem : GlobalProblem D) (id owner : Int)
    (heap heap1 : Heap P) (blank : SoTet10 D M)
    (h : SoTet10.ctor ctx problem id owner heap = (Except.ok blank, heap1)) :
    blank.id = id ∧ blank.owner = owner ∧
      ((blank.prestress_ = none ∧ heap1 = heap) ∨
        (blank.prestress_ = some heap.length ∧ heap1.length = heap.length + 1)) := by
  by_cases hp : problem.get_parameter_list = true
  · cases ht : problem.throw_error_fd_material_tangent ctx.get_element_type_string with
    | error err =>
      simp [SoTet10.ctor, Exec.bind_def, Exec.andThen_apply, hp, ht, Exec.raise_apply] at h
    | ok u =>
      by_cases hm : is_mulf problem.get_type = true
      · simp [SoTet10.ctor, Exec.bind_def, Exec.andThen_apply, hp, ht, hm, Exec.ret_apply,
          make_shared] at h
        obtain ⟨h1, h2⟩ := h
        subst h1 h2
        simp
      · simp [SoTet10.ctor, Exec.bind_def, Exec.andThen_apply, hp, ht, hm, Exec.ret_apply] at h
        obtain ⟨h1, h2⟩ := h
        subst h1 h2
        simp
  · simp [SoTet10.ctor, Exec.bind_def, Exec.andThen_apply, hp, Exec.ret_apply, is_mulf] at h
    obtain ⟨h1, h2⟩ := h
    subst h1 h2
    simp

theorem ctor_returns [Zero D] [Zero M] (ctx : Tet10Interface D M P) (problem : GlobalProblem D) (id owner : Int)
    (heap : Heap P)
    (hfd : problem.get_parameter_list = true →
      problem.throw_error_fd_material_tangent ctx.get_element_type_string = Except.ok ()) :
    ∃ (ele : SoTet10 D M) (heap1 : Heap P),
      SoTet10.ctor ctx problem id owner heap = (Except.ok ele, heap1) := by
  by_cases hp : problem.get_parameter_list = true
  · by_cases hm : is_mulf problem.get_type = true
    · simp [SoTet10.ctor, Exec.bind_def, Exec.andThen_apply, hp, hfd hp, hm, Exec.ret_apply,
        make_shared]
    · simp [SoTet10.ctor, Exec.bind_def, Exec.andThen_apply, hp, hfd hp, hm, Exec.ret_apply]
  · simp [SoTet10.ctor, Exec.bind_def, Exec.andThen_apply, hp, Exec.ret_apply, is_mulf]

end CtorLemmas

/-! ## Claims on serialization -/

section SerializationClaims

variable {D M P : Type}

theorem create_from_buffer_run [Zero D] [Zero M] (ctx : Tet10Interface D M P)
    (problem : GlobalProblem D) (heap0 heap heap1 : Heap P) (blank e1 : SoTet10 D M)
    (buffer rest : UnpackBuffer D M)
    (hblank : (SoTet10.ctor ctx problem (-1) (-1)).run heap0 = (Except.ok blank, heap))
    (hun : (SoTet10.unpack ctx).run { heap := heap, self := blank, buffer := buffer }
      = (Except.ok (), { heap := heap1, self := e1, buffer := rest })) :
    (SoTet10Type.create_from_buffer ctx problem).run (heap0, buffer)
      = (Except.ok e1, (heap1, rest)) := by
  simp only [Exec.run] at hblank hun
  simp [Exec.run, SoTet10Type.create_from_buffer, hblank, hun]

/-- C1. Round trip with prestress inactive: when the base state round-trips through
`SoBase::pack`/`SoBase::unpack` and the prestress type of `e` is not MULF, unpacking the buffer
written by `pack` for `e` into the blank instance that the constructor makes for id `-1` and
owner `-1`, which is what `SoTet10Type::create(buffer)` does, returns normally, consumes the
whole buffer, leaves the heap alone and yields an entity equal to `e` in id, owner, `detJ_`,
`detJ_mass_`, `invJ_`, `invJ_mass_`, `pstype_`, `pstime_` and `time_`. -/
theorem round_trip_prestress_inactive [Zero D] [Zero M] (ctx : Tet10Interface D M P)
    (problem : GlobalProblem D) (heapSender heap0 heap : Heap P) (e blank : SoTet10 D M)
    (hbase : SoBase_round_trip ctx)
    (hinactive : is_mulf e.pstype_ = false)
    (hblank : (SoTet10.ctor ctx problem (-1) (-1)).run heap0 = (Except.ok blank, heap)) :
    ∃ e1 : SoTet10 D M,
      (SoTet10.unpack ctx).run
          { heap := heap, self := blank, buffer := ((SoTet10.pack ctx heapSender e).run []).2 }
        = (Except.ok (), { heap := heap, self := e1, buffer := [] }) ∧
      (SoTet10Type.create_from_buffer ctx problem).run
          (heap0, ((SoTet10.pack ctx heapSender e).run []).2)
        = (Except.ok e1, (heap, [])) ∧
      e1.id = e.id ∧ e1.owner = e.owner ∧ e1.detJ_ = e.detJ_ ∧ e1.detJ_mass_ = e.detJ_mass_ ∧
      e1.invJ_ = e.invJ_ ∧ e1.invJ_mass_ = e.invJ_mass_ ∧ e1.pstype_ = e.pstype_ ∧
      e1.pstime_ = e.pstime_ ∧ e1.time_ = e.time_ := by
  have hpack : ((SoTet10.pack ctx heapSender e).run []).2 = wire_fields ctx e ++ [] := by
    simp [Exec.run, pack_run, hinactive]
  have hun : (SoTet10.unpack ctx).run
      { heap := heap, self := blank, buffer := ((SoTet10.pack ctx heapSender e).run []).2 }
        = (Except.ok (),
            { heap := heap, self := { e with prestress_ := blank.prestress_ }, buffer := [] }) := by
    rw [hpack]
    simp only [Exec.run]
    rw [unpack_fields_run ctx hbase, unpack_prestress_block_inactive ctx _ hinactive]
  exact ⟨{ e with prestress_ := blank.prestress_ }, hun,
    create_from_buffer_run ctx problem heap0 heap heap blank _ _ [] hblank hun,
    rfl, rfl, rfl, rfl, rfl, rfl, rfl, rfl, rfl⟩

/-- Witness of C1: the entity `exEntity` without prestress, unpacked into the blank instance
of a run without prestress. -/
theorem round_trip_prestress_inactive_witness :
    ∃ e1 : SoTet10 ExDouble ExMatrix,
      (SoTet10.unpack exCtx).run
          { heap := ([] : Heap ExPreStress), self := exBlank,
            buffer := ((SoTet10.pack exCtx ([] : Heap ExPreStress) exEntity).run []).2 }
        = (Except.ok (), { heap := [], self := e1, buffer := [] }) ∧
      (SoTet10Type.create_from_buffer exCtx exProblemNone).run
          (([] : Heap ExPreStress), ((SoTet10.pack exCtx ([] : Heap ExPreStress) exEntity).run []).2)
        = (Except.ok e1, ([], [])) ∧
      e1.id = exEntity.id ∧ e1.owner = exEntity.owner ∧ e1.detJ_ = exEntity.detJ_ ∧
      e1.detJ_mass_ = exEntity.detJ_mass_ ∧ e1.invJ_ = exEntity.invJ_ ∧
      e1.invJ_mass_ = exEntity.invJ_mass_ ∧ e1.pstype_ = exEntity.pstype_ ∧
      e1.pstime_ = exEntity.pstime_ ∧ e1.time_ = exEntity.time_ :=
  round_trip_prestress_inactive exCtx exProblemNone [] [] [] exEntity exBlank
    exCtx_base_round_trip rfl exBlank_ctor

/-- C2. Tag integrity: on a buffer whose leading integer differs from the object id of SoTet10,
`unpack` throws `protocolMismatch` having consumed the tag only; the target entity and the
prestress heap are exactly what they were, so no field was modified, and the base class
`unpack` (an arbitrary routine here) was not run. -/
theorem unpack_tag_mismatch [Zero M] (ctx : Tet10Interface D M P) (heap : Heap P) (target : SoTet10 D M)
    (tag : Int) (rest : UnpackBuffer D M) (hne : tag ≠ ctx.unique_par_object_id) :
    (SoTet10.unpack ctx).run { heap := heap, self := target, buffer := Cell.int tag :: rest }
      = (Except.error Error.protocolMismatch,
          { heap := heap, self := target, buffer := rest }) := by
  simp [Exec.run, SoTet10.unpack, Exec.bind_def, Exec.andThen_apply, on_buffer_apply,
    extract_and_assert_id, extract_int, hne, Exec.raise_apply]

/-- Witness of C2: a buffer tagged 78 offered to the SoTet10 of the concrete instance, whose
object id is 77. -/
theorem unpack_tag_mismatch_witness :
    (SoTet10.unpack exCtx).run
        { heap := exHeap, self := exEntityMulf,
          buffer := [Cell.int 78, Cell.int 5, Cell.int 2] }
      = (Except.error Error.protocolMismatch,
          { heap := exHeap, self := exEntityMulf, buffer := [Cell.int 5, Cell.int 2] }) :=
  unpack_tag_mismatch exCtx exHeap exEntityMulf 78 [Cell.int 5, Cell.int 2] (by decide)

theorem deref_of_points_to (heap : Heap P) (ptr : Option Nat) (a : Nat) (p : P)
    (hptr : ptr = some a) (hobj : heap[a]? = some p) :
    (deref ptr heap).1 = Except.ok p := by
  simp [deref, hptr, hobj]

/-- C3, as the code has it. `pack` writes, after what the buffer held: the type tag, the base
state, `detJ_` of the stiffness scheme, `detJ_mass_` of the mass scheme, `invJ_` of the
stiffness scheme, `invJ_mass_` of the mass scheme, the prestress type, the prestress time, the
local time, and then the packed prestress object if and only if the prestress type is MULF;
each of the four sequences and the packed object is preceded by its element count. The two
determinant arrays come first and the two inverse-Jacobian arrays after them. -/
theorem pack_field_order [Zero M] (ctx : Tet10Interface D M P) (heap : Heap P)
    (e : SoTet10 D M) (data : PackBuffer D M) (p : P)
    (hp : is_mulf e.pstype_ = true → ∃ a, e.prestress_ = some a ∧ heap[a]? = some p) :
    (SoTet10.pack ctx heap e).run data
      = (Except.ok (),
          data ++
            ([Cell.int ctx.unique_par_object_id]
              ++ ctx.SoBase_pack e.toSoBase
              ++ (Cell.int (e.detJ_.length : Int) :: e.detJ_.map Cell.double)
              ++ (Cell.int (e.detJ_mass_.length : Int) :: e.detJ_mass_.map Cell.double)
              ++ (Cell.int (e.invJ_.length : Int) :: e.invJ_.map Cell.matrix)
              ++ (Cell.int (e.invJ_mass_.length : Int) :: e.invJ_mass_.map Cell.matrix)
              ++ [Cell.prestress_type e.pstype_, Cell.double e.pstime_, Cell.double e.time_]
              ++ (if is_mulf e.pstype_ then
                    Cell.int ((ctx.PreStress_pack p).length : Int) :: ctx.PreStress_pack p
                  else []))) := by
  by_cases hm : is_mulf e.pstype_ = true
  · obtain ⟨a, hptr, hobj⟩ := hp hm
    simp [Exec.run, pack_run, hm, deref_of_points_to heap _ a p hptr hobj, wire_fields,
      wire_vector, wire_matrices, wire_object]
  · simp [Exec.run, pack_run, hm, wire_fields, wire_vector, wire_matrices]

/-- Witness of C3 as amended: the MULF entity of the concrete instance, whose prestress object
is the history at address 0. -/
theorem pack_field_order_witness :
    (SoTet10.pack exCtx exHeap exEntityMulf).run []
      = (Except.ok (),
          [] ++
            ([Cell.int exCtx.unique_par_object_id]
              ++ exCtx.SoBase_pack exEntityMulf.toSoBase
              ++ (Cell.int (exEntityMulf.detJ_.length : Int) ::
                    exEntityMulf.detJ_.map Cell.double)
              ++ (Cell.int (exEntityMulf.detJ_mass_.length : Int) ::
                    exEntityMulf.detJ_mass_.map Cell.double)
              ++ (Cell.int (exEntityMulf.invJ_.length : Int) ::
                    exEntityMulf.invJ_.map Cell.matrix)
              ++ (Cell.int (exEntityMulf.invJ_mass_.length : Int) ::
                    exEntityMulf.invJ_mass_.map Cell.matrix)
              ++ [Cell.prestress_type exEntityMulf.pstype_, Cell.double exEntityMulf.pstime_,
                    Cell.double exEntityMulf.time_]
              ++ (if is_mulf exEntityMulf.pstype_ then
                    Cell.int ((exCtx.PreStress_pack [7, 8, 9, 10]).length : Int) ::
                      exCtx.PreStress_pack [7, 8, 9, 10]
                  else []))) :=
  pack_field_order exCtx exHeap exEntityMulf [] [7, 8, 9, 10] (fun _ => ⟨0, rfl, rfl⟩)

/-- Counterexample to C3 as stated: for the entity `exEntity` (four stiffness and eleven mass
integration points) the cell following the four entries of `detJ_` is the count 11 of
`detJ_mass_`, where the order of the specification has the count 4 of `invJ_`; so `pack` does
not write the specification's order. -/
theorem pack_field_order_counterexample :
    ((SoTet10.pack exCtx ([] : Heap ExPreStress) exEntity).run []).2[8]? = some (Cell.int 11) ∧
    (spec_field_order exCtx exEntity ([] : ExPreStress))[8]? = some (Cell.int 4) ∧
    (SoTet10.pack exCtx ([] : Heap ExPreStress) exEntity).run []
      ≠ (Except.ok (), spec_field_order exCtx exEntity ([] : ExPreStress)) := by
  have h1 : ((SoTet10.pack exCtx ([] : Heap ExPreStress) exEntity).run []).2[8]?
      = some (Cell.int 11) := rfl
  have h2 : (spec_field_order exCtx exEntity ([] : ExPreStress))[8]? = some (Cell.int 4) := rfl
  refine ⟨h1, h2, ?_⟩
  intro h
  rw [h] at h1
  rw [h2] at h1
  simp at h1

/-- C4. Round trip with prestress active: when the base state and the prestress object
round-trip through their own pack/unpack, the prestress type of `e` is MULF and its prestress
object `p` is present, unpacking the buffer written by `pack` for `e` into the blank instance
of the constructor, which is what `SoTet10Type::create(buffer)` does, returns normally,
consumes the whole buffer and yields an entity equal to `e` in the fields of the inactive case
whose prestress pointer is set and points to an object equal to `p`. The run parameters are
arbitrary, so the blank instance may or may not hold a prestress object of its own. -/
theorem round_trip_prestress_active [Zero D] [Zero M] (ctx : Tet10Interface D M P)
    (problem : GlobalProblem D) (heapSender heap0 heap : Heap P) (e blank : SoTet10 D M)
    (a : Nat) (p : P)
    (hbase : SoBase_round_trip ctx) (hpre : PreStress_round_trip ctx)
    (hactive : is_mulf e.pstype_ = true)
    (hptr : e.prestress_ = some a) (hobj : heapSender[a]? = some p)
    (hblank : (SoTet10.ctor ctx problem (-1) (-1)).run heap0 = (Except.ok blank, heap)) :
    ∃ (e1 : SoTet10 D M) (heap1 : Heap P) (a1 : Nat),
      (SoTet10.unpack ctx).run
          { heap := heap, self := blank, buffer := ((SoTet10.pack ctx heapSender e).run []).2 }
        = (Except.ok (), { heap := heap1, self := e1, buffer := [] }) ∧
      (SoTet10Type.create_from_buffer ctx problem).run
          (heap0, ((SoTet10.pack ctx heapSender e).run []).2)
        = (Except.ok e1, (heap1, [])) ∧
      e1.id = e.id ∧ e1.owner = e.owner ∧ e1.detJ_ = e.detJ_ ∧ e1.detJ_mass_ = e.detJ_mass_ ∧
      e1.invJ_ = e.invJ_ ∧ e1.invJ_mass_ = e.invJ_mass_ ∧ e1.pstype_ = e.pstype_ ∧
      e1.pstime_ = e.pstime_ ∧ e1.time_ = e.time_ ∧
      e1.prestress_ = some a1 ∧ heap1[a1]? = some p := by
  have hpack : ((SoTet10.pack ctx heapSender e).run []).2
      = wire_fields ctx e ++ (wire_object (ctx.PreStress_pack p) ++ []) := by
    simp [Exec.run, pack_run, hactive, deref_of_points_to heapSender _ a p hptr hobj]
  obtain ⟨-, -, hcase⟩ := ctor_returned ctx problem (-1) (-1) heap0 heap blank hblank
  rcases hcase with ⟨hnull, -⟩ | ⟨hsome, hlen⟩
  · have hun : (SoTet10.unpack ctx).run
        { heap := heap, self := blank, buffer := ((SoTet10.pack ctx heapSender e).run []).2 }
          = (Except.ok (),
              { heap := heap ++ [p], self := { e with prestress_ := some heap.length },
                buffer := [] }) := by
      rw [hpack]
      simp only [Exec.run]
      rw [unpack_fields_run ctx hbase,
        unpack_prestress_block_null ctx hpre heap { e with prestress_ := blank.prestress_ } p []
          hactive hnull]
    exact ⟨_, _, heap.length, hun,
      create_from_buffer_run ctx problem heap0 heap _ blank _ _ [] hblank hun,
      rfl, rfl, rfl, rfl, rfl, rfl, rfl, rfl, rfl, rfl, by simp⟩
  · have hb : heap0.length < heap.length := by omega
    have hun : (SoTet10.unpack ctx).run
        { heap := heap, self := blank, buffer := ((SoTet10.pack ctx heapSender e).run []).2 }
          = (Except.ok (),
              { heap := heap.set heap0.length p,
                self := { e with prestress_ := blank.prestress_ }, buffer := [] }) := by
      rw [hpack]
      simp only [Exec.run]
      rw [unpack_fields_run ctx hbase,
        unpack_prestress_block_present ctx hpre heap { e with prestress_ := blank.prestress_ } p
          [] heap0.length hactive hsome hb]
    exact ⟨_, _, heap0.length, hun,
      create_from_buffer_run ctx problem heap0 heap _ blank _ _ [] hblank hun,
      rfl, rfl, rfl, rfl, rfl, rfl, rfl, rfl, rfl, hsome, by simp [hb]⟩

/-- Witness of C4: the MULF entity of the concrete instance with the non-empty history
`[7, 8, 9, 10]`, unpacked into the blank instance of a MULF run, which holds a prestress object
of its own. -/
theorem round_trip_prestress_active_witness :
    ∃ (e1 : SoTet10 ExDouble ExMatrix) (heap1 : Heap ExPreStress) (a1 : Nat),
      (SoTet10.unpack exCtx).run
          { heap := [List.replicate 4 0], self := exBlankMulf,
            buffer := ((SoTet10.pack exCtx exHeap exEntityMulf).run []).2 }
        = (Except.ok (), { heap := heap1, self := e1, buffer := [] }) ∧
      (SoTet10Type.create_from_buffer exCtx exProblemMulf).run
          (([] : Heap ExPreStress), ((SoTet10.pack exCtx exHeap exEntityMulf).run []).2)
        = (Except.ok e1, (heap1, [])) ∧
      e1.id = exEntityMulf.id ∧ e1.owner = exEntityMulf.owner ∧
      e1.detJ_ = exEntityMulf.detJ_ ∧ e1.detJ_mass_ = exEntityMulf.detJ_mass_ ∧
      e1.invJ_ = exEntityMulf.invJ_ ∧ e1.invJ_mass_ = exEntityMulf.invJ_mass_ ∧
      e1.pstype_ = exEntityMulf.pstype_ ∧ e1.pstime_ = exEntityMulf.pstime_ ∧
      e1.time_ = exEntityMulf.time_ ∧
      e1.prestress_ = some a1 ∧ heap1[a1]? = some [7, 8, 9, 10] :=
  round_trip_prestress_active exCtx exProblemMulf exHeap [] [List.replicate 4 0] exEntityMulf
    exBlankMulf 0 [7, 8, 9, 10] exCtx_base_round_trip exCtx_prestress_round_trip rfl rfl rfl
    exBlankMulf_ctor

end SerializationClaims

/-! ## The copy constructor -/

section CopyLemmas

variable {D M P : Type}

theorem set_take_append_drop {α : Type} (d : α) :
    ∀ (n : Nat) (old v : List α), n < old.length → n < v.length →
      (old.take n ++ v.drop n).set n (old.getD n d) = old.take (n + 1) ++ v.drop (n + 1) := by
  intro n
  induction n with
  | zero =>
    intro old v h1 h2
    cases old with
    | nil => simp at h1
    | cons x old =>
      cases v with
      | nil => simp at h2
      | cons y v => simp
  | succ n ih =>
    intro old v h1 h2
    cases old with
    | nil => simp at h1
    | cons x old =>
      cases v with
      | nil => simp at h2
      | cons y v =>
        have h := ih old v (by simpa using h1) (by simpa using h2)
        simpa using h

theorem copy_fold_prefix {α : Type} (d : α) (old v : List α) (hlen : v.length = old.length) :
    ∀ n, n ≤ old.length →
      (List.range n).foldl (fun (w : List α) i => w.set i (old.getD i d)) v
        = old.take n ++ v.drop n := by
  intro n
  induction n with
  | zero => intro _; simp
  | succ n ih =>
    intro hn
    rw [List.range_succ, List.foldl_append, ih (by omega)]
    simp only [List.foldl_cons, List.foldl_nil]
    exact set_take_append_drop d n old v (by omega) (by omega)

theorem copy_fold {α : Type} (d : α) (old v : List α) (hlen : v.length = old.length) :
    (List.range v.length).foldl (fun (w : List α) i => w.set i (old.getD i d)) v = old := by
  rw [hlen, copy_fold_prefix d old v hlen old.length (le_refl _)]
  simp [← hlen]

theorem fold_invJ (g : Nat → M) (l : List Nat) :
    ∀ self : SoTet10 D M,
      l.foldl (fun (self : SoTet10 D M) i => { self with invJ_ := self.invJ_.set i (g i) }) self
        = { self with invJ_ := l.foldl (fun (w : List M) i => w.set i (g i)) self.invJ_ } := by
  induction l with
  | nil => intro self; rfl
  | cons i l ih => intro self; simp [ih]

theorem fold_invJ_mass (g : Nat → M) (l : List Nat) :
    ∀ self : SoTet10 D M,
      l.foldl (fun (self : SoTet10 D M) i =>
          { self with invJ_mass_ := self.invJ_mass_.set i (g i) }) self
        = { self with
            invJ_mass_ := l.foldl (fun (w : List M) i => w.set i (g i)) self.invJ_mass_ } := by
  induction l with
  | nil => intro self; rfl
  | cons i l ih => intro self; simp [ih]

theorem copy_ctor_run [Zero M] (old : SoTet10 D M) (heap : Heap P) :
    (SoTet10.copy_ctor old : Exec (Heap P) (SoTet10 D M)) heap =
      if is_mulf old.pstype_ then
        match (deref old.prestress_ heap).1 with
        | Except.ok p => (Except.ok { old with prestress_ := some heap.length }, heap ++ [p])
        | Except.error err => (Except.error err, heap)
      else (Except.ok { old with prestress_ := none }, heap) := by
  have h1 : (List.range (resize ([] : List M) old.invJ_.length 0).length).foldl
      (fun (w : List M) i => w.set i (old.invJ_.getD i 0)) (resize [] old.invJ_.length 0)
        = old.invJ_ := copy_fold 0 _ _ (length_resize _ _ _)
  have h2 : (List.range (resize ([] : List M) old.invJ_mass_.length 0).length).foldl
      (fun (w : List M) i => w.set i (old.invJ_mass_.getD i 0)) (resize [] old.invJ_mass_.length 0)
        = old.invJ_mass_ := copy_fold 0 _ _ (length_resize _ _ _)
  simp only [SoTet10.copy_ctor, Exec.bind_def, Exec.andThen_apply, fold_invJ, fold_invJ_mass,
    h1, h2]
  by_cases hm : is_mulf old.pstype_ = true
  · cases old.prestress_ with
    | none => simp [hm, deref, Exec.andThen_apply]
    | some a =>
      cases ha : heap[a]? with
      | none => simp [hm, deref, ha, Exec.andThen_apply]
      | some p => simp [hm, deref, ha, make_shared, Exec.ret_apply, Exec.andThen_apply]
  · simp [hm, Exec.ret_apply]

end CopyLemmas

/-! ## Claims on the factory and on clone -/

section FactoryCloneClaims

variable {D M P : Type}

/-- Counterexample to C9 as stated: in a run whose finite-difference tangent check raises,
the registry of the concrete instance probed with its own type name returns no entity: the
constructor raises `fdMaterialTangent` and `create` lets the error through. -/
theorem create_probe_counterexample :
    "SOLIDT10" = exCtx.get_element_type_string ∧
    (SoTet10Type.create exCtx exProblemFD "SOLIDT10" "TET10" 7 0).run ([] : Heap ExPreStress)
      = (Except.error Error.fdMaterialTangent, []) := by
  refine ⟨rfl, rfl⟩

/-- C9, as the code has it. `SoTet10Type::create(eletype, eledistype, id, owner)` returns null,
without error and without touching the heap, when `eletype` differs from the element type
string of the registry. When it is equal, `create` does what the constructor does: if the
parameter list is available and the finite-difference tangent check of the constructor raises,
`create` raises that error and returns no entity; otherwise it returns the entity the
constructor built, whose id and owner are the given ones. The shape name `eledistype` has no
influence. -/
theorem create_probe [Zero D] [Zero M] (ctx : Tet10Interface D M P) (problem : GlobalProblem D)
    (eletype eledistype : String) (id owner : Int) (heap : Heap P) :
    (eletype ≠ ctx.get_element_type_string →
      (SoTet10Type.create ctx problem eletype eledistype id owner).run heap
        = (Except.ok none, heap)) ∧
    (eletype = ctx.get_element_type_string →
      (SoTet10Type.create ctx problem eletype eledistype id owner).run heap
        = match (SoTet10.ctor ctx problem id owner).run heap with
          | (Except.ok ele, heap1) => (Except.ok (some ele), heap1)
          | (Except.error err, heap1) => (Except.error err, heap1)) ∧
    (eletype = ctx.get_element_type_string →
      (problem.get_parameter_list = true →
        problem.throw_error_fd_material_tangent ctx.get_element_type_string = Except.ok ()) →
      ∃ (ele : SoTet10 D M) (heap1 : Heap P),
        (SoTet10Type.create ctx problem eletype eledistype id owner).run heap
          = (Except.ok (some ele), heap1) ∧ ele.id = id ∧ ele.owner = owner) ∧
    (eletype = ctx.get_element_type_string →
      ∀ err : Error,
        problem.get_parameter_list = true →
        problem.throw_error_fd_material_tangent ctx.get_element_type_string
          = Except.error err →
        (SoTet10Type.create ctx problem eletype eledistype id owner).run heap
          = (Except.error err, heap)) ∧
    (∀ other : String,
      (SoTet10Type.create ctx problem eletype other id owner).run heap
        = (SoTet10Type.create ctx problem eletype eledistype id owner).run heap) := by
  refine ⟨?_, ?_, ?_, ?_, ?_⟩
  · intro hne
    simp [Exec.run, SoTet10Type.create, Exec.bind_def, hne, Exec.pure_def, Exec.ret_apply,
      Exec.andThen_apply]
  · intro heq
    rcases hc : SoTet10.ctor ctx problem id owner heap with ⟨r, heap1⟩
    cases r <;>
      simp [Exec.run, SoTet10Type.create, Exec.bind_def, heq, Exec.andThen_apply, hc,
        Exec.pure_def, Exec.ret_apply]
  · intro heq hfd
    obtain ⟨ele, heap1, hc⟩ := ctor_returns ctx problem id owner heap hfd
    obtain ⟨hid, hown, -⟩ := ctor_returned ctx problem id owner heap heap1 ele hc
    refine ⟨ele, heap1, ?_, hid, hown⟩
    simp [Exec.run, SoTet10Type.create, Exec.bind_def, heq, Exec.andThen_apply, hc,
      Exec.pure_def, Exec.ret_apply]
  · intro heq err hp ht
    simp [Exec.run, SoTet10Type.create, SoTet10.ctor, Exec.bind_def, heq, Exec.andThen_apply,
      hp, ht, Exec.raise_apply]
  · intro other
    rfl

/-- Witness of C9 as amended: the registry of the concrete instance probed with the type name
of another element kind, with its own in a run whose check passes, and with its own in a run
whose check raises. -/
theorem create_probe_witness :
    (SoTet10Type.create exCtx exProblemNone "SOLIDH27" "HEX27" 7 0).run ([] : Heap ExPreStress)
      = (Except.ok none, []) ∧
    (∃ (ele : SoTet10 ExDouble ExMatrix) (heap1 : Heap ExPreStress),
      (SoTet10Type.create exCtx exProblemNone "SOLIDT10" "TET10" 7 0).run []
        = (Except.ok (some ele), heap1) ∧ ele.id = 7 ∧ ele.owner = 0) ∧
    (SoTet10Type.create exCtx exProblemFD "SOLIDT10" "TET10" 7 0).run ([] : Heap ExPreStress)
      = (Except.error Error.fdMaterialTangent, []) :=
  ⟨(create_probe exCtx exProblemNone "SOLIDH27" "HEX27" 7 0 []).1 (by decide),
    (create_probe exCtx exProblemNone "SOLIDT10" "TET10" 7 0 []).2.2.1 rfl (fun _ => rfl),
    (create_probe exCtx exProblemFD "SOLIDT10" "TET10" 7 0 []).2.2.2.1 rfl
      Error.fdMaterialTangent rfl rfl⟩

theorem mutate_independent (m : Mutation D M P) (w : AliasWorld D M P)
    (hd : ∀ a, w.bystander.prestress_ = some a → w.target.prestress_ ≠ some a) :
    (mutate m w).2.bystander = w.bystander ∧
      (mutate m w).2.target.prestress_ = w.target.prestress_ ∧
      prestress_object (mutate m w).2.heap w.bystander = prestress_object w.heap w.bystander := by
  cases m with
  | detJ i x => exact ⟨rfl, rfl, rfl⟩
  | detJ_mass i x => exact ⟨rfl, rfl, rfl⟩
  | invJ i m => exact ⟨rfl, rfl, rfl⟩
  | invJ_mass i m => exact ⟨rfl, rfl, rfl⟩
  | prestress q =>
    refine ⟨rfl, rfl, ?_⟩
    cases ht : w.target.prestress_ with
    | none => simp [mutate, through_ptr, ht]
    | some b =>
      cases hb : w.heap[b]? with
      | none => simp [mutate, through_ptr, ht, hb]
      | some p =>
        cases hby : w.bystander.prestress_ with
        | none => simp [prestress_object, hby]
        | some a =>
          have hne : b ≠ a := by
            intro h
            exact hd a hby (by rw [ht, h])
          simp [mutate, through_ptr, ht, hb, prestress_object, hby, List.getElem?_set_ne hne]

theorem mutate_all_independent (ms : List (Mutation D M P)) :
    ∀ w : AliasWorld D M P,
      (∀ a, w.bystander.prestress_ = some a → w.target.prestress_ ≠ some a) →
      (mutate_all ms w).2.bystander = w.bystander ∧
        prestress_object (mutate_all ms w).2.heap w.bystander
          = prestress_object w.heap w.bystander := by
  induction ms with
  | nil => intro w _; exact ⟨rfl, rfl⟩
  | cons m ms ih =>
    intro w hd
    obtain ⟨h1, h2, h3⟩ := mutate_independent m w hd
    simp only [mutate_all, Exec.andThen_apply]
    rcases hm : mutate m w with ⟨r, w1⟩
    rw [hm] at h1 h2 h3
    simp only at h1 h2 h3
    cases r with
    | error err => exact ⟨h1, h3⟩
    | ok u =>
      have hd1 : ∀ a, w1.bystander.prestress_ = some a → w1.target.prestress_ ≠ some a := by
        intro a ha
        rw [h1] at ha
        rw [h2]
        exact hd a ha
      obtain ⟨k1, k2⟩ := ih w1 hd1
      rw [h1] at k1 k2
      exact ⟨k1, k2.trans h3⟩

/-- C10. Clone independence: for an entity whose prestress pointer is valid when its prestress
type is MULF, `clone` returns an entity equal to the original in `detJ_`, `detJ_mass_`,
`invJ_`, `invJ_mass_`, `pstype_`, `pstime_` and `time_`, and leaves every object already on
the heap as it was. When the prestress type is not MULF the clone has no prestress pointer at
all; when it is MULF the clone points to a fresh object equal to the original's, at another
address. Every later sequence of mutations of the clone (assignments to entries of its four
arrays, writes to its prestress object) leaves the original, all its fields and its prestress
object, as they were, and every such sequence of mutations of the original leaves the clone
and its prestress object as they were; the mutations do reach their target: an assignment
changes the array of the clone and a write changes the prestress object of the clone. -/
theorem clone_independent [Zero M] (heap : Heap P) (e : SoTet10 D M)
    (hvalid : is_mulf e.pstype_ = true → ∃ a p, e.prestress_ = some a ∧ heap[a]? = some p) :
    ∃ (c : SoTet10 D M) (heap1 : Heap P),
      (SoTet10.clone e).run heap = (Except.ok c, heap1) ∧
      c.detJ_ = e.detJ_ ∧ c.detJ_mass_ = e.detJ_mass_ ∧ c.invJ_ = e.invJ_ ∧
      c.invJ_mass_ = e.invJ_mass_ ∧ c.pstype_ = e.pstype_ ∧ c.pstime_ = e.pstime_ ∧
      c.time_ = e.time_ ∧
      (∀ b, b < heap.length → heap1[b]? = heap[b]?) ∧
      (is_mulf e.pstype_ = false → c.prestress_ = none ∧ heap1 = heap) ∧
      (is_mulf e.pstype_ = true →
        ∃ (a ac : Nat) (p : P),
          e.prestress_ = some a ∧ c.prestress_ = some ac ∧ ac ≠ a ∧
          heap[a]? = some p ∧ heap1[a]? = some p ∧ heap1[ac]? = some p ∧
          (∀ q, (heap1.set ac q)[a]? = some p) ∧
          (∀ q, (heap1.set a q)[ac]? = some p)) ∧
      (∀ ms : List (Mutation D M P),
        (mutate_all ms { heap := heap1, bystander := e, target := c }).2.bystander = e ∧
        prestress_object
            (mutate_all ms { heap := heap1, bystander := e, target := c }).2.heap e
          = prestress_object heap e) ∧
      (∀ ms : List (Mutation D M P),
        (mutate_all ms { heap := heap1, bystander := c, target := e }).2.bystander = c ∧
        prestress_object
            (mutate_all ms { heap := heap1, bystander := c, target := e }).2.heap c
          = prestress_object heap1 c) ∧
      (∀ (i : Nat) (x : D) (m : M),
        (mutate_all [Mutation.detJ i x]
            { heap := heap1, bystander := e, target := c }).2.target.detJ_
          = e.detJ_.set i x ∧
        (mutate_all [Mutation.detJ_mass i x]
            { heap := heap1, bystander := e, target := c }).2.target.detJ_mass_
          = e.detJ_mass_.set i x ∧
        (mutate_all [Mutation.invJ i m]
            { heap := heap1, bystander := e, target := c }).2.target.invJ_
          = e.invJ_.set i m ∧
        (mutate_all [Mutation.invJ_mass i m]
            { heap := heap1, bystander := e, target := c }).2.target.invJ_mass_
          = e.invJ_mass_.set i m) ∧
      (is_mulf e.pstype_ = true →
        ∀ q : P,
          prestress_object
              (mutate_all [Mutation.prestress q]
                { heap := heap1, bystander := e, target := c }).2.heap c
            = some q) := by
  by_cases hm : is_mulf e.pstype_ = true
  · obtain ⟨a, p, hptr, hobj⟩ := hvalid hm
    have ha : a < heap.length := by
      by_contra hge
      rw [List.getElem?_eq_none (by omega)] at hobj
      cases hobj
    have hkeep : prestress_object (heap ++ [p]) e = prestress_object heap e := by
      simp [prestress_object, hptr, List.getElem?_append_left ha]
    refine ⟨{ e with prestress_ := some heap.length }, heap ++ [p], ?_, rfl, rfl, rfl, rfl, rfl,
      rfl, rfl, ?_, ?_, ?_, ?_, ?_, fun _ _ _ => ⟨rfl, rfl, rfl, rfl⟩, ?_⟩
    rotate_right
    · intro _ q
      simp [mutate_all, mutate, Exec.andThen_apply, through_ptr, Exec.update_apply,
        Exec.ret_apply, prestress_object]
    · simp [Exec.run, SoTet10.clone, copy_ctor_run, hm, deref_of_points_to heap _ a p hptr hobj]
    · intro b hb
      simp [List.getElem?_append_left hb]
    · intro h
      rw [hm] at h
      cases h
    · intro _
      refine ⟨a, heap.length, p, hptr, rfl, by omega, hobj, ?_, by simp, ?_, ?_⟩
      · simpa [List.getElem?_append_left ha] using hobj
      · intro q
        have hne : heap.length ≠ a := by omega
        rw [List.getElem?_set_ne hne]
        simpa [List.getElem?_append_left ha] using hobj
      · intro q
        have hne : a ≠ heap.length := by omega
        rw [List.getElem?_set_ne hne]
        simp
    · intro ms
      have h := mutate_all_independent ms
        { heap := heap ++ [p], bystander := e,
          target := { e with prestress_ := some heap.length } }
        (by
          intro b hb hc
          simp only [hptr, Option.some.injEq] at hb hc
          omega)
      exact ⟨h.1, h.2.trans hkeep⟩
    · intro ms
      exact mutate_all_independent ms
        { heap := heap ++ [p], bystander := { e with prestress_ := some heap.length },
          target := e }
        (by
          intro b hb hc
          simp only [hptr, Option.some.injEq] at hb hc
          omega)
  · have hm2 : is_mulf e.pstype_ = false := by simpa using hm
    refine ⟨{ e with prestress_ := none }, heap, ?_, rfl, rfl, rfl, rfl, rfl, rfl, rfl, ?_, ?_,
      ?_, ?_, ?_, fun _ _ _ => ⟨rfl, rfl, rfl, rfl⟩, fun h => absurd h hm⟩
    · simp [Exec.run, SoTet10.clone, copy_ctor_run, hm]
    · intro b _
      rfl
    · intro _
      exact ⟨rfl, rfl⟩
    · intro h
      exact absurd h hm
    · intro ms
      exact mutate_all_independent ms
        { heap := heap, bystander := e, target := { e with prestress_ := none } }
        (by intro b _ hc; cases hc)
    · intro ms
      exact mutate_all_independent ms
        { heap := heap, bystander := { e with prestress_ := none }, target := e }
        (by intro b hb; cases hb)

/-- Witness of C10: the MULF entity of the concrete instance, cloned on the heap that holds its
prestress history. -/
theorem clone_independent_witness :
    ∃ (c : SoTet10 ExDouble ExMatrix) (heap1 : Heap ExPreStress),
      (SoTet10.clone exEntityMulf).run exHeap = (Except.ok c, heap1) ∧
      c.detJ_ = exEntityMulf.detJ_ ∧ c.detJ_mass_ = exEntityMulf.detJ_mass_ ∧
      c.invJ_ = exEntityMulf.invJ_ ∧ c.invJ_mass_ = exEntityMulf.invJ_mass_ ∧
      c.pstype_ = exEntityMulf.pstype_ ∧ c.pstime_ = exEntityMulf.pstime_ ∧
      c.time_ = exEntityMulf.time_ ∧
      (∀ b, b < exHeap.length → heap1[b]? = exHeap[b]?) ∧
      (is_mulf exEntityMulf.pstype_ = false → c.prestress_ = none ∧ heap1 = exHeap) ∧
      (is_mulf exEntityMulf.pstype_ = true →
        ∃ (a ac : Nat) (p : ExPreStress),
          exEntityMulf.prestress_ = some a ∧ c.prestress_ = some ac ∧ ac ≠ a ∧
          exHeap[a]? = some p ∧ heap1[a]? = some p ∧ heap1[ac]? = some p ∧
          (∀ q, (heap1.set ac q)[a]? = some p) ∧
          (∀ q, (heap1.set a q)[ac]? = some p)) ∧
      (∀ ms : List (Mutation ExDouble ExMatrix ExPreStress),
        (mutate_all ms { heap := heap1, bystander := exEntityMulf, target := c }).2.bystander
          = exEntityMulf ∧
        prestress_object
            (mutate_all ms { heap := heap1, bystander := exEntityMulf, target := c }).2.heap
            exEntityMulf
          = prestress_object exHeap exEntityMulf) ∧
      (∀ ms : List (Mutation ExDouble ExMatrix ExPreStress),
        (mutate_all ms { heap := heap1, bystander := c, target := exEntityMulf }).2.bystander
          = c ∧
        prestress_object
            (mutate_all ms { heap := heap1, bystander := c, target := exEntityMulf }).2.heap c
          = prestress_object heap1 c) ∧
      (∀ (i : Nat) (x : ExDouble) (m : ExMatrix),
        (mutate_all [Mutation.detJ i x]
            { heap := heap1, bystander := exEntityMulf, target := c }).2.target.detJ_
          = exEntityMulf.detJ_.set i x ∧
        (mutate_all [Mutation.detJ_mass i x]
            { heap := heap1, bystander := exEntityMulf, target := c }).2.target.detJ_mass_
          = exEntityMulf.detJ_mass_.set i x ∧
        (mutate_all [Mutation.invJ i m]
            { heap := heap1, bystander := exEntityMulf, target := c }).2.target.invJ_
          = exEntityMulf.invJ_.set i m ∧
        (mutate_all [Mutation.invJ_mass i m]
            { heap := heap1, bystander := exEntityMulf, target := c }).2.target.invJ_mass_
          = exEntityMulf.invJ_mass_.set i m) ∧
      (is_mulf exEntityMulf.pstype_ = true →
        ∀ q : ExPreStress,
          prestress_object
              (mutate_all [Mutation.prestress q]
                { heap := heap1, bystander := exEntityMulf, target := c }).2.heap c
            = some q) :=
  clone_independent exHeap exEntityMulf (fun _ => ⟨0, [7, 8, 9, 10], rfl, rfl⟩)

end FactoryCloneClaims

/-! ## Lemmas on parameter lists and on the multiscale routines -/

section Hex27Lemmas

variable {R : Type}

theorem find_set_self (params : ParameterList R) (name : String) (value : ParameterEntry R) :
    ParameterList.find (ParameterList.set params name value) name = some value := by
  induction params with
  | nil => simp [ParameterList.set, ParameterList.find]
  | cons entry rest ih =>
    obtain ⟨n, v⟩ := entry
    by_cases h : n = name
    · simp [ParameterList.set, ParameterList.find, h]
    · simp [ParameterList.set, ParameterList.find, h, ih]

theorem find_set_ne (params : ParameterList R) (name other : String) (value : ParameterEntry R)
    (hne : other ≠ name) :
    ParameterList.find (ParameterList.set params name value) other
      = ParameterList.find params other := by
  induction params with
  | nil =>
    have h : ¬ name = other := fun h => hne h.symm
    simp [ParameterList.set, ParameterList.find, h]
  | cons entry rest ih =>
    obtain ⟨n, v⟩ := entry
    by_cases h : n = name
    · have h2 : ¬ name = other := fun h => hne h.symm
      simp [ParameterList.set, ParameterList.find, h, h2]
    · by_cases h3 : n = other
      · subst h3
        simp [ParameterList.set, ParameterList.find, hne]
      · simp [ParameterList.set, ParameterList.find, h, h3, ih]

theorem homog_fold [Add R] (term : Nat → R) (l : List Nat) :
    ∀ (acc : R) (queried : List MaterialCall),
      l.foldl (fun (acc : R × List MaterialCall) gp =>
          (acc.1 + term gp, acc.2 ++ [MaterialCall.density gp])) (acc, queried)
        = (l.foldl (fun acc gp => acc + term gp) acc, queried ++ l.map MaterialCall.density) := by
  induction l with
  | nil => intro acc queried; simp
  | cons gp l ih => intro acc queried; simp [ih]

theorem homog_run [Zero R] [Add R] [Mul R] (ctx : Hex27Interface R) (comm : Communicators)
    (self : SoHex27 R) (s : HomogState R) :
    SoHex27.soh27_homog ctx comm self s =
      if comm.sub_comm = self.owner then
        match ParameterList.find s.params "homogdens" with
        | some (ParameterEntry.double x) =>
          (Except.ok (),
            { params := ParameterList.set s.params "homogdens"
                (ParameterEntry.double (x + ordered_sum ctx.NUMGPT_SOH27 (fun gp =>
                  self.detJ_.getD gp 0 * ctx.soh27_weights.getD gp 0 * self.material.density gp))),
              calls := s.calls ++ (List.range ctx.NUMGPT_SOH27).map MaterialCall.density })
        | some (ParameterEntry.other _) =>
          (Except.error Error.invalidParameterType,
            { params := s.params,
              calls := s.calls ++ (List.range ctx.NUMGPT_SOH27).map MaterialCall.density })
        | none =>
          (Except.ok (),
            { params := ParameterList.set
                (ParameterList.set s.params "homogdens" (ParameterEntry.double 0)) "homogdens"
                (ParameterEntry.double (0 + ordered_sum ctx.NUMGPT_SOH27 (fun gp =>
                  self.detJ_.getD gp 0 * ctx.soh27_weights.getD gp 0 * self.material.density gp))),
              calls := s.calls ++ (List.range ctx.NUMGPT_SOH27).map MaterialCall.density })
      else (Except.ok (), s) := by
  by_cases hown : comm.sub_comm = self.owner
  · have hf := homog_fold (fun gp =>
      self.detJ_.getD gp 0 * ctx.soh27_weights.getD gp 0 * self.material.density gp)
      (List.range ctx.NUMGPT_SOH27) 0 []
    simp only [List.nil_append] at hf
    simp only [SoHex27.soh27_homog, hown, if_true, hf, Exec.bind_def, Exec.andThen_apply,
      Exec.update_apply, Exec.focus_apply, ParameterList.get_double, ordered_sum]
    cases hfind : ParameterList.find s.params "homogdens" with
    | none => simp
    | some entry =>
      cases entry with
      | double x => simp
      | other label => simp
  · simp [SoHex27.soh27_homog, hown, Exec.pure_def, Exec.ret_apply]

theorem restart_loop (f : Nat → MaterialCall) :
    ∀ (k i : Nat) (calls : List MaterialCall),
      Exec.forLoop (fun gp => Exec.update (fun calls => calls ++ [f gp])) i k calls
        = (Except.ok (), calls ++ (List.range' i k).map f) := by
  intro k
  induction k with
  | zero => intro i calls; simp [Exec.forLoop, Exec.ret_apply]
  | succ k ih =>
    intro i calls
    simp [Exec.forLoop, Exec.andThen_apply, Exec.update_apply, ih, List.range'_succ]

theorem restart_run [Zero R] [Add R] [Mul R] (ctx : Hex27Interface R) (comm : Communicators)
    (self : SoHex27 R) (calls : List MaterialCall) :
    SoHex27.soh27_read_restart_multi ctx comm self calls =
      if self.material.material_type = MaterialType.m_struct_multiscale then
        (Except.ok (), calls ++ (List.range ctx.NUMGPT_SOH27).map (fun gp =>
          MaterialCall.read_restart gp self.id (decide (comm.structure_comm = self.owner))))
      else (Except.ok (), calls) := by
  by_cases hk : self.material.material_type = MaterialType.m_struct_multiscale
  · simp [SoHex27.soh27_read_restart_multi, hk, restart_loop, List.range_eq_range']
  · simp [SoHex27.soh27_read_restart_multi, hk, Exec.pure_def, Exec.ret_apply]

end Hex27Lemmas

/-! ## Claims on multiscale coupling -/

section MultiscaleClaims

theorem ordered_sum_eq_sum {R : Type} [AddCommMonoid R] (n : Nat) (term : Nat → R) :
    ordered_sum n term = ∑ gp in Finset.range n, term gp := by
  unfold ordered_sum
  induction n with
  | zero => simp
  | succ n ih => rw [List.range_succ, List.foldl_append, ih, Finset.sum_range_succ]; rfl

theorem exHex_homog_owner :
    (SoHex27.soh27_homog exHexCtx exRank0 exHex).run { params := [], calls := [] }
      = (Except.ok (),
          { params := [("homogdens", ParameterEntry.double 4)],
            calls := [MaterialCall.density 0, MaterialCall.density 1] }) := by
  simp [Exec.run, homog_run, exHexCtx, exRank0, exHex, ParameterList.find, ParameterList.set,
    ordered_sum, List.range_succ]
  norm_num

theorem exHexPlain_homog_owner :
    (SoHex27.soh27_homog exHexCtx exRank0 exHexPlain).run { params := [], calls := [] }
      = (Except.ok (),
          { params := [("homogdens", ParameterEntry.double 4)],
            calls := [MaterialCall.density 0, MaterialCall.density 1] }) := by
  simp [Exec.run, homog_run, exHexCtx, exRank0, exHex, exHexPlain, ParameterList.find,
    ParameterList.set, ordered_sum, List.range_succ]
  norm_num

/-- C5. Homogenization arithmetic: on the owning rank (rank in the sub-communicator equal to
`owner()`), with a `"homogdens"` entry that is absent or a `double`, `soh27_homog` returns
normally and sets `"homogdens"` to its previous value (zero when absent) plus the sum over
`gp = 0, ..., NUMGPT_SOH27 - 1`, accumulated in index order, of
`detJ_[gp] * weights[gp] * density(gp)`; the other entries keep their values and the density is
queried once per integration point. This holds for every interpretation of the arithmetic of
`double`. In the two-point scenario with exact values the entry becomes `4`. -/
theorem homog_arithmetic :
    (∀ (R : Type) [Zero R] [Add R] [Mul R] (ctx : Hex27Interface R) (comm : Communicators)
        (self : SoHex27 R) (s : HomogState R),
      comm.sub_comm = self.owner →
      (∀ label, ParameterList.find s.params "homogdens" ≠ some (ParameterEntry.other label)) →
      ∃ s1 : HomogState R,
        (SoHex27.soh27_homog ctx comm self).run s = (Except.ok (), s1) ∧
        ParameterList.find s1.params "homogdens"
          = some (ParameterEntry.double
              (ParameterList.double_or s.params "homogdens" 0
                + ordered_sum ctx.NUMGPT_SOH27 (fun gp =>
                    self.detJ_.getD gp 0 * ctx.soh27_weights.getD gp 0
                      * self.material.density gp))) ∧
        (∀ name, name ≠ "homogdens" →
          ParameterList.find s1.params name = ParameterList.find s.params name) ∧
        s1.calls = s.calls ++ (List.range ctx.NUMGPT_SOH27).map MaterialCall.density) ∧
    (SoHex27.soh27_homog exHexCtx exRank0 exHex).run { params := [], calls := [] }
      = (Except.ok (),
          { params := [("homogdens", ParameterEntry.double 4)],
            calls := [MaterialCall.density 0, MaterialCall.density 1] }) := by
  refine ⟨?_, exHex_homog_owner⟩
  intro R _ _ _ ctx comm self s hown htyped
  simp only [Exec.run, homog_run, hown, if_true]
  cases hfind : ParameterList.find s.params "homogdens" with
  | none =>
    refine ⟨_, rfl, ?_, ?_, rfl⟩
    · simp [find_set_self, ParameterList.double_or, hfind]
    · intro name hne
      simp [find_set_ne _ _ _ _ hne]
  | some entry =>
    cases entry with
    | other label => exact absurd hfind (htyped label)
    | double x =>
      refine ⟨_, rfl, ?_, ?_, rfl⟩
      · simp [find_set_self, ParameterList.double_or, hfind]
      · intro name hne
        simp [find_set_ne _ _ _ _ hne]

/-- Witness of C5: the two-point scenario `detJ = [2.0, 1.0]`, `weight = [0.5, 0.25]`,
`quantity = [3.0, 4.0]` on the owning rank with an empty accumulator. -/
theorem homog_arithmetic_witness :
    ∃ s1 : HomogState ℚ,
      (SoHex27.soh27_homog exHexCtx exRank0 exHex).run { params := [], calls := [] }
        = (Except.ok (), s1) ∧
      ParameterList.find s1.params "homogdens"
        = some (ParameterEntry.double
            (ParameterList.double_or ([] : ParameterList ℚ) "homogdens" 0
              + ordered_sum exHexCtx.NUMGPT_SOH27 (fun gp =>
                  exHex.detJ_.getD gp 0 * exHexCtx.soh27_weights.getD gp 0
                    * exHex.material.density gp))) ∧
      (∀ name, name ≠ "homogdens" →
        ParameterList.find s1.params name = ParameterList.find ([] : ParameterList ℚ) name) ∧
      s1.calls = [] ++ (List.range exHexCtx.NUMGPT_SOH27).map MaterialCall.density :=
  homog_arithmetic.1 ℚ exHexCtx exRank0 exHex { params := [], calls := [] } rfl
    (fun label h => by cases h)

/-- C6. Ownership-gated skip: when the rank in the sub-communicator differs from the owner,
`soh27_homog` returns normally and leaves the parameter list and the log of material calls
exactly as they were: no error, no density query, `"homogdens"` neither changed nor created;
hence a run that changes the state is a run on the owning rank. With `owner = 0` the process
of rank 0 is treated as owner (it queries and accumulates) and the process of rank 1 is not. -/
theorem homog_ghost_skip :
    (∀ (R : Type) [Zero R] [Add R] [Mul R] (ctx : Hex27Interface R) (comm : Communicators)
        (self : SoHex27 R) (s : HomogState R),
      comm.sub_comm ≠ self.owner →
      (SoHex27.soh27_homog ctx comm self).run s = (Except.ok (), s)) ∧
    (∀ (R : Type) [Zero R] [Add R] [Mul R] (ctx : Hex27Interface R) (comm : Communicators)
        (self : SoHex27 R) (s : HomogState R),
      (SoHex27.soh27_homog ctx comm self).run s ≠ (Except.ok (), s) →
      comm.sub_comm = self.owner) ∧
    (SoHex27.soh27_homog exHexCtx exRank0 exHex).run { params := [], calls := [] }
      = (Except.ok (),
          { params := [("homogdens", ParameterEntry.double 4)],
            calls := [MaterialCall.density 0, MaterialCall.density 1] }) ∧
    (SoHex27.soh27_homog exHexCtx exRank1 exHex).run { params := [], calls := [] }
      = (Except.ok (), { params := [], calls := [] }) := by
  refine ⟨?_, ?_, exHex_homog_owner, ?_⟩
  rotate_left 2
  · simp [Exec.run, homog_run, exRank1, exHex]
  · intro R _ _ _ ctx comm self s hne
    simp [Exec.run, homog_run, hne]
  · intro R _ _ _ ctx comm self s hchanged
    by_contra hne
    exact hchanged (by simp [Exec.run, homog_run, hne])

/-- Witness of C6: the ghost replica on rank 1 of the entity owned by rank 0, with an
accumulator that already holds a value. -/
theorem homog_ghost_skip_witness :
    (SoHex27.soh27_homog exHexCtx exRank1 exHex).run
        { params := [("homogdens", ParameterEntry.double 5)], calls := [] }
      = (Except.ok (), { params := [("homogdens", ParameterEntry.double 5)], calls := [] }) :=
  homog_ghost_skip.1 ℚ exHexCtx exRank1 exHex
    { params := [("homogdens", ParameterEntry.double 5)], calls := [] } (by decide)

/-- C7. Restart call ordering: for an entity whose material is of the multiscale kind, one
call of `soh27_read_restart_multi` returns normally having made exactly the calls
`read_restart(gp, id, isOwner)` for `gp = 0, 1, ..., NUMGPT_SOH27 - 1` in this order, all with
the same entity id and the same flag, which is true iff the rank in the communicator of the
discretization of the structure equals the owner; a ghost replica gets the same calls with
the flag false. -/
theorem restart_call_order {R : Type} [Zero R] [Add R] [Mul R] (ctx : Hex27Interface R)
    (comm : Communicators) (self : SoHex27 R) (calls : List MaterialCall)
    (hkind : self.material.material_type = MaterialType.m_struct_multiscale) :
    (SoHex27.soh27_read_restart_multi ctx comm self).run calls
      = (Except.ok (),
          calls ++ (List.range ctx.NUMGPT_SOH27).map (fun gp =>
            MaterialCall.read_restart gp self.id (decide (comm.structure_comm = self.owner)))) := by
  simp [Exec.run, restart_run, hkind]

/-- Witness of C7: four integration points, the entity with id 12 owned by rank 0, restarted
on rank 1 where it is a ghost. -/
theorem restart_call_order_witness :
    (SoHex27.soh27_read_restart_multi exHexCtx4 exRank1 exHex).run []
      = (Except.ok (),
          [] ++ (List.range exHexCtx4.NUMGPT_SOH27).map (fun gp =>
            MaterialCall.read_restart gp exHex.id
              (decide (exRank1.structure_comm = exHex.owner)))) :=
  restart_call_order exHexCtx4 exRank1 exHex [] rfl

/-- Counterexample to C8 as stated: the entity `exHexPlain` is bound to a material that is not
of the multiscale kind and is owned by rank 0; on rank 0 `soh27_homog` queries the density at
both integration points and creates `"homogdens"` with the value 4. -/
theorem capability_check_counterexample :
    exHexPlain.material.material_type ≠ MaterialType.m_struct_multiscale ∧
    (SoHex27.soh27_homog exHexCtx exRank0 exHexPlain).run { params := [], calls := [] }
      = (Except.ok (),
          { params := [("homogdens", ParameterEntry.double 4)],
            calls := [MaterialCall.density 0, MaterialCall.density 1] }) ∧
    ((SoHex27.soh27_homog exHexCtx exRank0 exHexPlain).run { params := [], calls := [] }).2.calls
      ≠ [] := by
  refine ⟨by decide, exHexPlain_homog_owner, ?_⟩
  rw [exHexPlain_homog_owner]
  simp

theorem homog_owner_run {R : Type} [Zero R] [Add R] [Mul R] (ctx : Hex27Interface R)
    (comm : Communicators) (self : SoHex27 R) (s : HomogState R)
    (hown : comm.sub_comm = self.owner)
    (htyped : ∀ label,
      ParameterList.find s.params "homogdens" ≠ some (ParameterEntry.other label)) :
    ∃ s1 : HomogState R,
      (SoHex27.soh27_homog ctx comm self).run s = (Except.ok (), s1) ∧
      ParameterList.find s1.params "homogdens"
        = some (ParameterEntry.double
            (ParameterList.double_or s.params "homogdens" 0
              + ordered_sum ctx.NUMGPT_SOH27 (fun gp =>
                  self.detJ_.getD gp 0 * ctx.soh27_weights.getD gp 0
                    * self.material.density gp))) ∧
      (∀ name, name ≠ "homogdens" →
        ParameterList.find s1.params name = ParameterList.find s.params name) ∧
      s1.calls = s.calls ++ (List.range ctx.NUMGPT_SOH27).map MaterialCall.density := by
  simp only [Exec.run, homog_run, hown, if_true]
  cases hfind : ParameterList.find s.params "homogdens" with
  | none =>
    refine ⟨_, rfl, ?_, ?_, rfl⟩
    · simp [find_set_self, ParameterList.double_or, hfind]
    · intro name hne
      simp [find_set_ne _ _ _ _ hne]
  | some entry =>
    cases entry with
    | other label => exact absurd hfind (htyped label)
    | double x =>
      refine ⟨_, rfl, ?_, ?_, rfl⟩
      · simp [find_set_self, ParameterList.double_or, hfind]
      · intro name hne
        simp [find_set_ne _ _ _ _ hne]

/-- C8, as the code has it. For an entity whose material is not of the multiscale kind,
`soh27_read_restart_multi` makes no call on the material. `soh27_homog` has no check of the
material kind and is gated by ownership alone: on a rank that is not the owner it makes no
query and leaves the parameter list unchanged; on the owning rank (with a `"homogdens"` entry
that is absent or a `double`) it returns normally having queried `density(gp)` once at every
integration point in index order and having set `"homogdens"` to its previous value (zero when
absent) plus the sum over `gp` of `detJ_[gp] * weights[gp] * density(gp)`, the other entries
keeping their values. -/
theorem capability_check {R : Type} [Zero R] [Add R] [Mul R] (ctx : Hex27Interface R)
    (comm : Communicators) (self : SoHex27 R) (calls : List MaterialCall) (s : HomogState R)
    (hkind : self.material.material_type ≠ MaterialType.m_struct_multiscale) :
    (SoHex27.soh27_read_restart_multi ctx comm self).run calls = (Except.ok (), calls) ∧
    (comm.sub_comm ≠ self.owner →
      (SoHex27.soh27_homog ctx comm self).run s = (Except.ok (), s)) ∧
    (comm.sub_comm = self.owner →
      (∀ label,
        ParameterList.find s.params "homogdens" ≠ some (ParameterEntry.other label)) →
      ∃ s1 : HomogState R,
        (SoHex27.soh27_homog ctx comm self).run s = (Except.ok (), s1) ∧
        ParameterList.find s1.params "homogdens"
          = some (ParameterEntry.double
              (ParameterList.double_or s.params "homogdens" 0
                + ordered_sum ctx.NUMGPT_SOH27 (fun gp =>
                    self.detJ_.getD gp 0 * ctx.soh27_weights.getD gp 0
                      * self.material.density gp))) ∧
        (∀ name, name ≠ "homogdens" →
          ParameterList.find s1.params name = ParameterList.find s.params name) ∧
        s1.calls = s.calls ++ (List.range ctx.NUMGPT_SOH27).map MaterialCall.density) := by
  refine ⟨?_, ?_, ?_⟩
  · simp [Exec.run, restart_run, hkind]
  · intro hne
    simp [Exec.run, homog_run, hne]
  · intro hown htyped
    exact homog_owner_run ctx comm self s hown htyped

/-- Witness of C8 as amended: the entity bound to a plain material, on its owning rank with an
empty accumulator and an empty call log. -/
theorem capability_check_witness :
    (SoHex27.soh27_read_restart_multi exHexCtx exRank0 exHexPlain).run [] = (Except.ok (), []) ∧
    ∃ s1 : HomogState ℚ,
      (SoHex27.soh27_homog exHexCtx exRank0 exHexPlain).run { params := [], calls := [] }
        = (Except.ok (), s1) ∧
      ParameterList.find s1.params "homogdens"
        = some (ParameterEntry.double
            (ParameterList.double_or ([] : ParameterList ℚ) "homogdens" 0
              + ordered_sum exHexCtx.NUMGPT_SOH27 (fun gp =>
                  exHexPlain.detJ_.getD gp 0 * exHexCtx.soh27_weights.getD gp 0
                    * exHexPlain.material.density gp))) ∧
      (∀ name, name ≠ "homogdens" →
        ParameterList.find s1.params name = ParameterList.find ([] : ParameterList ℚ) name) ∧
      s1.calls = [] ++ (List.range exHexCtx.NUMGPT_SOH27).map MaterialCall.density :=
  ⟨(capability_check exHexCtx exRank0 exHexPlain [] { params := [], calls := [] }
      (by decide)).1,
    (capability_check exHexCtx exRank0 exHexPlain [] { params := [], calls := [] }
      (by decide)).2.2 rfl (fun label h => by cases h)⟩

end MultiscaleClaims

/-! ## Claims on post-setup, visualization and null-space metadata -/

section ServiceClaims

variable {D M P N : Type}

theorem find_remove_self (params : ParameterList D) (name : String) :
    ParameterList.find (ParameterList.remove params name) name = none := by
  induction params with
  | nil => simp [ParameterList.remove, ParameterList.find]
  | cons entry rest ih =>
    obtain ⟨n, v⟩ := entry
    by_cases h : n = name
    · simp [ParameterList.remove, h, ih]
    · simp [ParameterList.remove, ParameterList.find, h, ih]

theorem material_post_setup_run (post : PostSetupInterface D N) (nodes : N)
    (params : ParameterList D) :
    SoTet10.material_post_setup post nodes params =
      match post.SoBase_material_post_setup
          (if post.have_nodal_fibers nodes then
            ParameterList.set params "fiberholder"
              (ParameterEntry.other (post.project_fibers_to_gauss_points nodes))
          else params) with
      | (Except.ok _, q) => (Except.ok (), ParameterList.remove q "fiberholder")
      | (Except.error e, q) => (Except.error e, q) := by
  cases hf : post.have_nodal_fibers nodes with
  | true =>
    rcases hb : post.SoBase_material_post_setup
        (ParameterList.set params "fiberholder"
          (ParameterEntry.other (post.project_fibers_to_gauss_points nodes))) with ⟨r, q⟩
    cases r <;>
      simp [SoTet10.material_post_setup, hf, Exec.bind_def, Exec.andThen_apply,
        Exec.update_apply, hb]
  | false =>
    rcases hb : post.SoBase_material_post_setup params with ⟨r, q⟩
    cases r <;>
      simp [SoTet10.material_post_setup, hf, Exec.bind_def, Exec.andThen_apply,
        Exec.update_apply, Exec.pure_def, Exec.ret_apply, hb]

/-- C11. Side-channel cleanup: for every parameter list, whatever it held on entry, the base
class post-setup is called on the list with `"fiberholder"` set to the interpolated fibers when
the nodes carry fibers, and on the list as it came (nothing added) when they do not; when the
base class post-setup returns, `material_post_setup` returns with `"fiberholder"` removed from
what the base class left, so after every normal return the list has no `"fiberholder"`
entry. -/
theorem post_setup_cleanup (post : PostSetupInterface D N) (nodes : N)
    (params : ParameterList D) :
    (post.have_nodal_fibers nodes = true →
      ParameterList.find
          (ParameterList.set params "fiberholder"
            (ParameterEntry.other (post.project_fibers_to_gauss_points nodes))) "fiberholder"
        = some (ParameterEntry.other (post.project_fibers_to_gauss_points nodes)) ∧
      ∀ r q,
        post.SoBase_material_post_setup
            (ParameterList.set params "fiberholder"
              (ParameterEntry.other (post.project_fibers_to_gauss_points nodes))) = (r, q) →
        (SoTet10.material_post_setup post nodes).run params
          = (r, match r with
                | Except.ok _ => ParameterList.remove q "fiberholder"
                | Except.error _ => q)) ∧
    (post.have_nodal_fibers nodes = false →
      ∀ r q,
        post.SoBase_material_post_setup params = (r, q) →
        (SoTet10.material_post_setup post nodes).run params
          = (r, match r with
                | Except.ok _ => ParameterList.remove q "fiberholder"
                | Except.error _ => q)) ∧
    (∀ q, (SoTet10.material_post_setup post nodes).run params = (Except.ok (), q) →
      ParameterList.find q "fiberholder" = none) := by
  refine ⟨?_, ?_, ?_⟩
  · intro hf
    refine ⟨find_set_self _ _ _, ?_⟩
    intro r q hbase
    cases r <;> simp [Exec.run, material_post_setup_run, hf, hbase]
  · intro hf r q hbase
    cases r <;> simp [Exec.run, material_post_setup_run, hf, hbase]
  · intro q hrun
    simp only [Exec.run, material_post_setup_run] at hrun
    split at hrun
    · cases hrun
      exact find_remove_self _ _
    · cases hrun

/-- Witness of C11: nodes with fibers and a list that already holds a stale `"fiberholder"`;
the base class post-setup of the concrete instance sees the interpolated fibers and records
them under `"seen"`, and the list returned has no `"fiberholder"`. -/
theorem post_setup_cleanup_witness :
    (SoTet10.material_post_setup exPost exFiberNodes).run
        [("fiberholder", ParameterEntry.other "stale")]
      = (Except.ok (), [("seen", ParameterEntry.other "fibers at 4 gp")]) ∧
    ParameterList.find ([("seen", ParameterEntry.other "fibers at 4 gp")] : ParameterList ExDouble)
        "fiberholder" = none :=
  ⟨((post_setup_cleanup exPost exFiberNodes
        [("fiberholder", ParameterEntry.other "stale")]).1 rfl).2 (Except.ok ())
      [("fiberholder", ParameterEntry.other "fibers at 4 gp"),
        ("seen", ParameterEntry.other "fibers at 4 gp")] rfl,
    (post_setup_cleanup exPost exFiberNodes
        [("fiberholder", ParameterEntry.other "stale")]).2.2
      [("seen", ParameterEntry.other "fibers at 4 gp")] rfl⟩

/-- C13. Null-space block metadata is constant: for every element argument, a null pointer
included, and every prior value of the outputs, `nodal_block_information` returns normally with
`numdf = 3`, `dimns = 6`, `nv = 3` and `np` as the caller passed it. -/
theorem nodal_block_information_constant (dwele : Option (SoTet10 D M))
    (out : BlockInformation) :
    (SoTet10Type.nodal_block_information dwele).run out
      = (Except.ok (), { numdf := 3, dimns := 6, nv := 3, np := out.np }) := by
  rfl

theorem vis_data_run (ctx : Tet10Interface D M P) (vis : VisInterface D) (self : SoTet10 D M)
    (name : String) (s : VisState D) :
    SoTet10.vis_data ctx vis self name s =
      if (vis.Element_vis_data self.toSoBase name s.data).1 = true then
        (Except.ok true,
          { s with data := (vis.Element_vis_data self.toSoBase name s.data).2,
                   calls := s.calls ++ [VisCall.element_vis_data name] })
      else
        (Except.ok
            (vis.Material_vis_data name (vis.Element_vis_data self.toSoBase name s.data).2
              ctx.NUMGPT_SOTET10 self.id).1,
          { s with
            data := (vis.Material_vis_data name
              (vis.Element_vis_data self.toSoBase name s.data).2 ctx.NUMGPT_SOTET10 self.id).2,
            calls := s.calls ++ [VisCall.element_vis_data name,
              VisCall.material_vis_data name ctx.NUMGPT_SOTET10 self.id] }) := by
  cases h : (vis.Element_vis_data self.toSoBase name s.data).1 <;>
    simp [SoTet10.vis_data, Exec.bind_def, Exec.andThen_apply, Exec.pure_def, Exec.ret_apply, h]

/-- Counterexample to C12 as stated: with a base class whose own attribute is `"Owner"` and a
material that reports `"density"`, `vis_names` on an empty map yields the name of the material
only and asks the material only, where the wording of the specification yields `"Owner"`
first and `"density"` second. -/
theorem vis_delegation_counterexample :
    (SoTet10.vis_names exVis).run { data := [], names := [], calls := [] }
      = (Except.ok (),
          { data := [], names := [("density", 1)], calls := [VisCall.material_vis_names] }) ∧
    (vis_names_spec exVis).run { data := [], names := [], calls := [] }
      = (Except.ok (),
          { data := [], names := [("Owner", 1), ("density", 1)],
            calls := [VisCall.element_vis_names, VisCall.material_vis_names] }) ∧
    ((SoTet10.vis_names exVis).run { data := [], names := [], calls := [] }).2.names
      ≠ ((vis_names_spec exVis).run { data := [], names := [], calls := [] }).2.names := by
  refine ⟨rfl, rfl, ?_⟩
  decide

/-- C12, as the code has it. `vis_data` asks the base class first; when the base class
recognizes the name it returns true and the material is not consulted; otherwise it returns
exactly the answer of the material for `(name, NUMGPT_SOTET10, id)`, so it returns true iff
the base class or the material recognizes the name. `vis_names` forwards the map to the
material alone: the names of the material are reported and no attribute name of the entity
itself is added. -/
theorem vis_delegation (ctx : Tet10Interface D M P) (vis : VisInterface D) (self : SoTet10 D M)
    (name : String) (s : VisState D) :
    ((vis.Element_vis_data self.toSoBase name s.data).1 = true →
      (SoTet10.vis_data ctx vis self name).run s
        = (Except.ok true,
            { s with data := (vis.Element_vis_data self.toSoBase name s.data).2,
                     calls := s.calls ++ [VisCall.element_vis_data name] })) ∧
    ((vis.Element_vis_data self.toSoBase name s.data).1 = false →
      (SoTet10.vis_data ctx vis self name).run s
        = (Except.ok
            (vis.Material_vis_data name (vis.Element_vis_data self.toSoBase name s.data).2
              ctx.NUMGPT_SOTET10 self.id).1,
          { s with
            data := (vis.Material_vis_data name
              (vis.Element_vis_data self.toSoBase name s.data).2 ctx.NUMGPT_SOTET10 self.id).2,
            calls := s.calls ++ [VisCall.element_vis_data name,
              VisCall.material_vis_data name ctx.NUMGPT_SOTET10 self.id] })) ∧
    (((SoTet10.vis_data ctx vis self name).run s).1 = Except.ok true ↔
      ((vis.Element_vis_data self.toSoBase name s.data).1 = true ∨
        (vis.Material_vis_data name (vis.Element_vis_data self.toSoBase name s.data).2
          ctx.NUMGPT_SOTET10 self.id).1 = true)) ∧
    (SoTet10.vis_names vis).run s
      = (Except.ok (),
          { s with names := vis.Material_vis_names s.names,
                   calls := s.calls ++ [VisCall.material_vis_names] }) := by
  refine ⟨?_, ?_, ?_, rfl⟩
  · intro h
    simp [Exec.run, vis_data_run, h]
  · intro h
    simp [Exec.run, vis_data_run, h]
  · cases h : (vis.Element_vis_data self.toSoBase name s.data).1 <;>
      simp [Exec.run, vis_data_run, h]

/-- Witness of C12 as amended: the entity of the concrete instance asked for `"Owner"`, which
the base class recognizes, and for `"density"`, which only the material recognizes. -/
theorem vis_delegation_witness :
    (SoTet10.vis_data exCtx exVis exEntity "Owner").run { data := [], names := [], calls := [] }
      = (Except.ok true,
          { data := [2], names := [], calls := [VisCall.element_vis_data "Owner"] }) ∧
    (SoTet10.vis_data exCtx exVis exEntity "density").run
        { data := [], names := [], calls := [] }
      = (Except.ok true,
          { data := [1], names := [],
            calls := [VisCall.element_vis_data "density",
              VisCall.material_vis_data "density" 4 5] }) :=
  ⟨(vis_delegation exCtx exVis exEntity "Owner" { data := [], names := [], calls := [] }).1 rfl,
    (vis_delegation exCtx exVis exEntity "density"
      { data := [], names := [], calls := [] }).2.1 rfl⟩

end ServiceClaims

/-! ## Observations kept by routines -/

namespace Exec

variable {σ τ α β γ : Type}

theorem keeps_ret (obs : σ → γ) (a : α) : Keeps obs (ret a : Exec σ α) := fun _ => rfl

theorem keeps_raise (obs : σ → γ) (e : Error) : Keeps obs (raise e : Exec σ α) := fun _ => rfl

theorem keeps_read (obs : σ → γ) : Keeps obs (read : Exec σ σ) := fun _ => rfl

theorem keeps_update (obs : σ → γ) (u : σ → σ) (h : ∀ s, obs (u s) = obs s) :
    Keeps obs (update u) := fun s => h s

theorem keeps_focus (obs : σ → γ) (get : σ → τ) (set : σ → τ → σ) (x : Exec τ α)
    (h : ∀ s t, obs (set s t) = obs s) : Keeps obs (focus get set x) := fun s => h s _

theorem keeps_andThen {obs : σ → γ} {x : Exec σ α} {f : α → Exec σ β}
    (hx : Keeps obs x) (hf : ∀ a, Keeps obs (f a)) : Keeps obs (andThen x f) := by
  intro s
  have h1 := hx s
  rw [andThen_apply]
  rcases hxs : x s with ⟨r, t⟩
  rw [hxs] at h1
  cases r with
  | error e => exact h1
  | ok a => exact (hf a t).trans h1

theorem keeps_ite {obs : σ → γ} (c : Prop) [Decidable c] {x y : Exec σ α}
    (hx : Keeps obs x) (hy : Keeps obs y) : Keeps obs (if c then x else y) := by
  by_cases h : c
  · simpa [h] using hx
  · simpa [h] using hy

theorem keeps_forLoop {obs : σ → γ} {body : Nat → Exec σ Unit}
    (hbody : ∀ i, Keeps obs (body i)) : ∀ (k i : Nat), Keeps obs (forLoop body i k) := by
  intro k
  induction k with
  | zero => intro i; exact keeps_ret obs ()
  | succ k ih => intro i; exact keeps_andThen (hbody i) (fun _ => ih (i + 1))

theorem ensures_raise_andThen (pre post : σ → Prop) (e : Error) (f : α → Exec σ β) :
    Ensures pre (andThen (raise e) f) post := by
  intro s b t _ hrun
  simp [andThen_apply, raise_apply] at hrun

theorem ensures_ite {pre post : σ → Prop} (c : Prop) [Decidable c] {x y : Exec σ α}
    (hx : Ensures pre x post) (hy : Ensures pre y post) :
    Ensures pre (if c then x else y) post := by
  by_cases h : c
  · simpa [h] using hx
  · simpa [h] using hy

theorem ensures_andThen_keeps (obs : σ → γ) (v : γ) {x : Exec σ α} {f : α → Exec σ β}
    {post : σ → Prop} (hx : Keeps obs x)
    (hf : ∀ a, Ensures (fun s => obs s = v) (f a) post) :
    Ensures (fun s => obs s = v) (andThen x f) post := by
  intro s b t hpre hrun
  have h1 := hx s
  rw [andThen_apply] at hrun
  rcases hxs : x s with ⟨r, u⟩
  rw [hxs] at h1 hrun
  cases r with
  | error e => cases hrun
  | ok a => exact hf a u b t (h1.trans hpre) hrun

end Exec

section KeepsLemmas

variable {D M P α γ : Type}

theorem keeps_on_buffer (g : Heap P × SoTet10 D M → γ) (x : Exec (UnpackBuffer D M) α) :
    Exec.Keeps (fun s : Tet10State D M P => g (s.heap, s.self)) (on_buffer x) :=
  fun _ => rfl

theorem keeps_on_heap (g : SoTet10 D M → γ) (x : Exec (Heap P) α) :
    Exec.Keeps (fun s : Tet10State D M P => g s.self) (on_heap x) :=
  fun _ => rfl

theorem keeps_assign (g : SoTet10 D M → γ) (f : SoTet10 D M → SoTet10 D M)
    (h : ∀ e, g (f e) = g e) :
    Exec.Keeps (fun s : Tet10State D M P => g s.self) (assign f) :=
  fun s => h s.self

theorem keeps_unpack_prestress_block (ctx : Tet10Interface D M P) (g : SoTet10 D M → γ)
    (h : ∀ e p, g { e with prestress_ := p } = g e) :
    Exec.Keeps (fun s : Tet10State D M P => g s.self) (unpack_prestress_block ctx) := by
  unfold unpack_prestress_block
  simp only [Exec.bind_def, Exec.pure_def]
  repeat' first
    | exact Exec.keeps_read _
    | exact Exec.keeps_ret _ _
    | exact keeps_on_buffer (fun w => g w.2) _
    | exact keeps_on_heap g _
    | exact keeps_assign g _ (fun e => h e _)
    | apply Exec.keeps_ite
    | apply Exec.keeps_andThen
    | intro _

end KeepsLemmas

/-! ## Claims on the invariants of the entity -/

section InvariantClaims

variable {D M P : Type}

theorem ctor_state [Zero D] [Zero M] (ctx : Tet10Interface D M P) (problem : GlobalProblem D)
    (id owner : Int) (heap heap1 : Heap P) (e : SoTet10 D M)
    (h : SoTet10.ctor ctx problem id owner heap = (Except.ok e, heap1)) :
    geometry_cache_invariant ctx e ∧
      (e.prestress_.isSome = true ↔ is_mulf e.pstype_ = true) ∧
      (is_mulf e.pstype_ = true ↔
        (problem.get_parameter_list = true ∧ is_mulf problem.get_type = true)) := by
  by_cases hp : problem.get_parameter_list = true
  · cases ht : problem.throw_error_fd_material_tangent ctx.get_element_type_string with
    | error err =>
      simp [SoTet10.ctor, Exec.bind_def, Exec.andThen_apply, hp, ht, Exec.raise_apply] at h
    | ok u =>
      by_cases hm : is_mulf problem.get_type = true
      · simp [SoTet10.ctor, Exec.bind_def, Exec.andThen_apply, hp, ht, hm, Exec.ret_apply,
          make_shared] at h
        obtain ⟨h1, h2⟩ := h
        subst h1 h2
        simp [geometry_cache_invariant, length_resize, hm, hp]
      · simp [SoTet10.ctor, Exec.bind_def, Exec.andThen_apply, hp, ht, hm, Exec.ret_apply] at h
        obtain ⟨h1, h2⟩ := h
        subst h1 h2
        simp [geometry_cache_invariant, length_resize, hm, hp]
  · simp [SoTet10.ctor, Exec.bind_def, Exec.andThen_apply, hp, Exec.ret_apply, is_mulf] at h
    obtain ⟨h1, h2⟩ := h
    subst h1 h2
    simp [geometry_cache_invariant, length_resize, hp, is_mulf]

theorem clone_state [Zero M] (e c : SoTet10 D M) (heap heap1 : Heap P)
    (h : (SoTet10.clone e : Exec (Heap P) (SoTet10 D M)) heap = (Except.ok c, heap1)) :
    c.detJ_ = e.detJ_ ∧ c.invJ_ = e.invJ_ ∧ c.detJ_mass_ = e.detJ_mass_ ∧
      c.invJ_mass_ = e.invJ_mass_ ∧ c.pstype_ = e.pstype_ ∧
      (c.prestress_.isSome = true ↔ is_mulf c.pstype_ = true) := by
  simp only [SoTet10.clone, copy_ctor_run] at h
  by_cases hm : is_mulf e.pstype_ = true
  · cases hd : (deref e.prestress_ heap).1 with
    | error err => simp [hm, hd] at h
    | ok p =>
      simp [hm, hd] at h
      obtain ⟨h1, h2⟩ := h
      subst h1
      simp [hm]
  · simp [hm] at h
    obtain ⟨h1, h2⟩ := h
    subst h1
    simp [hm]

theorem pack_returned_buffer [Zero M] (ctx : Tet10Interface D M P) (heap : Heap P)
    (e : SoTet10 D M) (buffer : PackBuffer D M)
    (h : SoTet10.pack ctx heap e [] = (Except.ok (), buffer)) :
    ∃ tl, buffer = wire_fields ctx e ++ tl := by
  rw [pack_run] at h
  by_cases hm : is_mulf e.pstype_ = true
  · cases hd : (deref e.prestress_ heap).1 with
    | error err => simp [hm, hd] at h
    | ok p =>
      simp only [hm, hd, if_true, List.nil_append, Prod.mk.injEq, true_and] at h
      exact ⟨_, h.symm⟩
  · have hm2 : is_mulf e.pstype_ = false := by simpa using hm
    simp [hm2] at h
    exact ⟨[], by simp [← h]⟩

theorem exEntity_pack_returns :
    (SoTet10.pack exCtx ([] : Heap ExPreStress) exEntity).run []
      = (Except.ok (), ((SoTet10.pack exCtx ([] : Heap ExPreStress) exEntity).run []).2) := by
  simp [Exec.run, pack_run, exEntity, is_mulf]

/-- Counterexample to C14 as stated: the buffer `exEmptyCountsBuffer` carries the tag and a
base state followed by four element counts that are all zero; `unpack` accepts it into the
blank instance of the constructor, which satisfies the invariant, and leaves the entity with
empty arrays, so the invariant (four and eleven entries) is lost. -/
theorem geometry_cache_counterexample :
    geometry_cache_invariant exCtx exBlank ∧
    (SoTet10.unpack exCtx).run
        { heap := ([] : Heap ExPreStress), self := exBlank, buffer := exEmptyCountsBuffer }
      = (Except.ok (),
          { heap := [],
            self := { id := 5, owner := 2, detJ_ := [], detJ_mass_ := [], invJ_ := [],
                      invJ_mass_ := [], pstype_ := PreStressType.none, pstime_ := 0, time_ := 0,
                      prestress_ := none },
            buffer := [] }) ∧
    ¬ geometry_cache_invariant exCtx
        ((SoTet10.unpack exCtx).run
          { heap := ([] : Heap ExPreStress), self := exBlank,
            buffer := exEmptyCountsBuffer }).2.self := by
  have hrun : (SoTet10.unpack exCtx).run
      { heap := ([] : Heap ExPreStress), self := exBlank, buffer := exEmptyCountsBuffer }
        = (Except.ok (),
            { heap := [],
              self := { id := 5, owner := 2, detJ_ := [], detJ_mass_ := [], invJ_ := [],
                        invJ_mass_ := [], pstype_ := PreStressType.none, pstime_ := 0,
                        time_ := 0, prestress_ := none },
              buffer := [] }) := rfl
  refine ⟨?_, hrun, ?_⟩
  · simp [geometry_cache_invariant, exCtx, exBlank]
  · rw [hrun]
    simp [geometry_cache_invariant, exCtx]

/-- C14, as the code has it. The constructor returns an entity whose arrays have
`NUMGPT_SOTET10` and `NUMGPT_MASS_SOTET10` entries; `clone` of an entity with the invariant
returns one with the invariant; `unpack` takes the lengths from the buffer without checking
them, and on a buffer that `pack` wrote for an entity with the invariant it leaves the target
with the invariant, whatever the target held and whether or not the rest of the buffer is
accepted. -/
theorem geometry_cache_lengths [Zero D] [Zero M] (ctx : Tet10Interface D M P) :
    (∀ (problem : GlobalProblem D) (id owner : Int) (heap heap1 : Heap P) (e : SoTet10 D M),
      (SoTet10.ctor ctx problem id owner).run heap = (Except.ok e, heap1) →
      geometry_cache_invariant ctx e) ∧
    (∀ (e c : SoTet10 D M) (heap heap1 : Heap P),
      geometry_cache_invariant ctx e →
      (SoTet10.clone e).run heap = (Except.ok c, heap1) →
      geometry_cache_invariant ctx c) ∧
    (∀ (heapSender heap : Heap P) (e target : SoTet10 D M) (buffer : PackBuffer D M)
        (r : Except Error Unit) (s1 : Tet10State D M P),
      SoBase_round_trip ctx →
      geometry_cache_invariant ctx e →
      (SoTet10.pack ctx heapSender e).run [] = (Except.ok (), buffer) →
      (SoTet10.unpack ctx).run { heap := heap, self := target, buffer := buffer } = (r, s1) →
      geometry_cache_invariant ctx s1.self) := by
  refine ⟨?_, ?_, ?_⟩
  · intro problem id owner heap heap1 e h
    exact (ctor_state ctx problem id owner heap heap1 e h).1
  · intro e c heap heap1 hinv h
    obtain ⟨h1, h2, h3, h4, -, -⟩ := clone_state e c heap heap1 h
    simpa [geometry_cache_invariant, h1, h2, h3, h4] using hinv
  · intro heapSender heap e target buffer r s1 hbase hinv hpack hun
    obtain ⟨tl, hb⟩ := pack_returned_buffer ctx heapSender e buffer hpack
    subst hb
    simp only [Exec.run] at hun
    rw [unpack_fields_run ctx hbase] at hun
    have hk := keeps_unpack_prestress_block ctx
      (fun e : SoTet10 D M => (e.detJ_, e.invJ_, e.detJ_mass_, e.invJ_mass_))
      (fun _ _ => rfl)
      { heap := heap, self := { e with prestress_ := target.prestress_ }, buffer := tl }
    rw [hun] at hk
    simp only [Prod.mk.injEq] at hk
    obtain ⟨h1, h2, h3, h4⟩ := hk
    simpa [geometry_cache_invariant, h1, h2, h3, h4] using hinv

/-- Witness of C14 as amended: the blank instance of the constructor, and the buffer written
for the entity `exEntity`, which has four and eleven entries, unpacked into it. -/
theorem geometry_cache_lengths_witness :
    geometry_cache_invariant exCtx exBlank ∧
    geometry_cache_invariant exCtx
      ((SoTet10.unpack exCtx).run
        { heap := ([] : Heap ExPreStress), self := exBlank,
          buffer := ((SoTet10.pack exCtx ([] : Heap ExPreStress) exEntity).run []).2 }).2.self :=
  ⟨(geometry_cache_lengths exCtx).1 exProblemNone (-1) (-1) [] [] exBlank exBlank_ctor,
    (geometry_cache_lengths exCtx).2.2 [] [] exEntity exBlank
      ((SoTet10.pack exCtx ([] : Heap ExPreStress) exEntity).run []).2 _ _
      exCtx_base_round_trip (by simp [geometry_cache_invariant, exCtx, exEntity])
      exEntity_pack_returns Prod.mk.eta.symm⟩

theorem ensures_unpack_prestress_block (ctx : Tet10Interface D M P) (p0 : Option Nat) :
    Exec.Ensures (fun s : Tet10State D M P => s.self.prestress_ = p0)
      (unpack_prestress_block ctx)
      (fun t => (t.self.prestress_.isSome = true ↔
        (is_mulf t.self.pstype_ = true ∨ p0.isSome = true))) := by
  intro s a t hpre hrun
  have hpre : s.self.prestress_ = p0 := hpre
  by_cases hm : is_mulf s.self.pstype_ = true
  · rcases hx : extract_object s.buffer with ⟨r, b⟩
    cases r with
    | error err =>
      simp [unpack_prestress_block, Exec.bind_def, Exec.andThen_apply, Exec.read_apply, hm,
        on_buffer_apply, hx] at hrun
    | ok tmp =>
      cases hp : s.self.prestress_ with
      | none =>
        simp [unpack_prestress_block, Exec.bind_def, Exec.andThen_apply, Exec.read_apply, hm,
          on_buffer_apply, hx, hp, on_heap_apply, make_shared, assign_apply, through_ptr] at hrun
        obtain ⟨-, h2⟩ := hrun
        subst h2
        simp [hm]
      | some b0 =>
        cases hh : s.heap[b0]? with
        | none =>
          simp [unpack_prestress_block, Exec.bind_def, Exec.andThen_apply, Exec.read_apply, hm,
            on_buffer_apply, hx, hp, on_heap_apply, Exec.pure_def, Exec.ret_apply, through_ptr,
            hh] at hrun
        | some q =>
          simp [unpack_prestress_block, Exec.bind_def, Exec.andThen_apply, Exec.read_apply, hm,
            on_buffer_apply, hx, hp, on_heap_apply, Exec.pure_def, Exec.ret_apply, through_ptr,
            hh] at hrun
          obtain ⟨-, h2⟩ := hrun
          subst h2
          simp [hm, hp]
  · have hm2 : is_mulf s.self.pstype_ = false := by simpa using hm
    simp [unpack_prestress_block, Exec.bind_def, Exec.andThen_apply, Exec.read_apply, hm2,
      Exec.pure_def, Exec.ret_apply] at hrun
    subst hrun
    simp [hm2, hpre]

theorem ensures_unpack [Zero M] (ctx : Tet10Interface D M P) (p0 : Option Nat) :
    Exec.Ensures (fun s : Tet10State D M P => s.self.prestress_ = p0)
      (SoTet10.unpack ctx)
      (fun t => (t.self.prestress_.isSome = true ↔
        (is_mulf t.self.pstype_ = true ∨ p0.isSome = true))) := by
  unfold SoTet10.unpack
  simp only [Exec.bind_def, Exec.pure_def]
  repeat' first
    | exact ensures_unpack_prestress_block ctx p0
    | exact Exec.ensures_raise_andThen _ _ _ _
    | exact Exec.keeps_ret _ _
    | exact keeps_on_buffer (fun w => w.2.prestress_) _
    | exact keeps_assign (fun e => e.prestress_) _ (fun _ => rfl)
    | exact Exec.keeps_focus _ _ _ _ (fun _ _ => rfl)
    | apply Exec.keeps_forLoop
    | apply Exec.keeps_andThen
    | apply Exec.ensures_ite
    | refine Exec.ensures_andThen_keeps (fun s : Tet10State D M P => s.self.prestress_) p0 ?_ ?_
    | intro _

theorem exEntityMulf_pack_buffer :
    ((SoTet10.pack exCtx exHeap exEntityMulf).run []).2
      = wire_fields exCtx exEntityMulf ++ (wire_object (exCtx.PreStress_pack [7, 8, 9, 10]) ++ []) := by
  have hd : (deref exEntityMulf.prestress_ exHeap).1 = Except.ok [7, 8, 9, 10] := rfl
  have hm : is_mulf exEntityMulf.pstype_ = true := rfl
  simp [Exec.run, pack_run, hm, hd]

theorem exEntity_pack_buffer :
    ((SoTet10.pack exCtx ([] : Heap ExPreStress) exEntity).run []).2
      = wire_fields exCtx exEntity ++ [] := by
  have hm : is_mulf exEntity.pstype_ = false := rfl
  simp [Exec.run, pack_run, hm]

theorem exBlank_unpack_mulf :
    (SoTet10.unpack exCtx).run
        { heap := ([] : Heap ExPreStress), self := exBlank,
          buffer := ((SoTet10.pack exCtx exHeap exEntityMulf).run []).2 }
      = (Except.ok (), { heap := [[7, 8, 9, 10]], self := exEntityMulf, buffer := [] }) := by
  rw [exEntityMulf_pack_buffer]
  simp only [Exec.run]
  rw [unpack_fields_run exCtx exCtx_base_round_trip,
    unpack_prestress_block_null exCtx exCtx_prestress_round_trip []
      { exEntityMulf with prestress_ := exBlank.prestress_ } [7, 8, 9, 10] [] rfl rfl]
  rfl

theorem exBlankMulf_unpack_plain :
    (SoTet10.unpack exCtx).run
        { heap := ([List.replicate 4 0] : Heap ExPreStress), self := exBlankMulf,
          buffer := ((SoTet10.pack exCtx ([] : Heap ExPreStress) exEntity).run []).2 }
      = (Except.ok (),
          { heap := [List.replicate 4 0], self := { exEntity with prestress_ := some 0 },
            buffer := [] }) := by
  rw [exEntity_pack_buffer]
  simp only [Exec.run]
  rw [unpack_fields_run exCtx exCtx_base_round_trip,
    unpack_prestress_block_inactive exCtx
      { heap := [List.replicate 4 0],
        self := { exEntity with prestress_ := exBlankMulf.prestress_ }, buffer := [] } rfl]
  rfl

/-- Counterexample to C15 as stated. First: a run without prestress builds the blank instance
`exBlank` without a prestress object; `unpack` accepts the buffer of the MULF entity
`exEntityMulf` into it and creates the object, so presence changed after construction. Second:
a MULF run builds the blank instance `exBlankMulf` with a prestress object; `unpack` accepts
the buffer of the entity `exEntity`, whose prestress type is not MULF, and keeps the object,
so it is present although `is_mulf(pstype_)` is false. -/
theorem prestress_presence_counterexample :
    ((SoTet10.ctor exCtx exProblemNone (-1) (-1)).run ([] : Heap ExPreStress)
        = (Except.ok exBlank, []) ∧
      exBlank.prestress_ = none ∧
      ((SoTet10.unpack exCtx).run
          { heap := ([] : Heap ExPreStress), self := exBlank,
            buffer := ((SoTet10.pack exCtx exHeap exEntityMulf).run []).2 }).1 = Except.ok () ∧
      ((SoTet10.unpack exCtx).run
          { heap := ([] : Heap ExPreStress), self := exBlank,
            buffer := ((SoTet10.pack exCtx exHeap exEntityMulf).run []).2 }).2.self.prestress_
        = some 0) ∧
    ((SoTet10.ctor exCtx exProblemMulf (-1) (-1)).run ([] : Heap ExPreStress)
        = (Except.ok exBlankMulf, [List.replicate 4 0]) ∧
      ((SoTet10.unpack exCtx).run
          { heap := ([List.replicate 4 0] : Heap ExPreStress), self := exBlankMulf,
            buffer := ((SoTet10.pack exCtx ([] : Heap ExPreStress) exEntity).run []).2 }).1
        = Except.ok () ∧
      ((SoTet10.unpack exCtx).run
          { heap := ([List.replicate 4 0] : Heap ExPreStress), self := exBlankMulf,
            buffer := ((SoTet10.pack exCtx ([] : Heap ExPreStress) exEntity).run []).2
          }).2.self.prestress_ = some 0 ∧
      is_mulf ((SoTet10.unpack exCtx).run
          { heap := ([List.replicate 4 0] : Heap ExPreStress), self := exBlankMulf,
            buffer := ((SoTet10.pack exCtx ([] : Heap ExPreStress) exEntity).run []).2
          }).2.self.pstype_ = false) := by
  refine ⟨⟨exBlank_ctor, rfl, ?_, ?_⟩, ⟨exBlankMulf_ctor, ?_, ?_, ?_⟩⟩
  · rw [exBlank_unpack_mulf]
  · rw [exBlank_unpack_mulf]
    rfl
  · rw [exBlankMulf_unpack_plain]
  · rw [exBlankMulf_unpack_plain]
  · rw [exBlankMulf_unpack_plain]
    rfl

/-- C15, as the code has it. Right after the constructor the prestress object is present iff
the parameter list is available and the prestress mode read from it is MULF, which is iff
`is_mulf(pstype_)`; a clone has it iff `is_mulf(pstype_)`, the type being that of the
original. `unpack` makes presence follow the buffer and never removes the object: after
`unpack` of an accepted buffer, whatever type the buffer carries, the object is present iff the
unpacked prestress type is MULF or the object was present before. -/
theorem prestress_presence [Zero D] [Zero M] (ctx : Tet10Interface D M P) :
    (∀ (problem : GlobalProblem D) (id owner : Int) (heap heap1 : Heap P) (e : SoTet10 D M),
      (SoTet10.ctor ctx problem id owner).run heap = (Except.ok e, heap1) →
      (e.prestress_.isSome = true ↔
        (problem.get_parameter_list = true ∧ is_mulf problem.get_type = true)) ∧
      (e.prestress_.isSome = true ↔ is_mulf e.pstype_ = true)) ∧
    (∀ (e c : SoTet10 D M) (heap heap1 : Heap P),
      (SoTet10.clone e).run heap = (Except.ok c, heap1) →
      c.pstype_ = e.pstype_ ∧ (c.prestress_.isSome = true ↔ is_mulf c.pstype_ = true)) ∧
    (∀ (heap : Heap P) (target : SoTet10 D M) (buffer : UnpackBuffer D M)
        (s1 : Tet10State D M P),
      (SoTet10.unpack ctx).run { heap := heap, self := target, buffer := buffer }
        = (Except.ok (), s1) →
      (s1.self.prestress_.isSome = true ↔
        (is_mulf s1.self.pstype_ = true ∨ target.prestress_.isSome = true))) := by
  refine ⟨?_, ?_, ?_⟩
  · intro problem id owner heap heap1 e h
    obtain ⟨-, h1, h2⟩ := ctor_state ctx problem id owner heap heap1 e h
    exact ⟨h1.trans h2, h1⟩
  · intro e c heap heap1 h
    obtain ⟨-, -, -, -, h1, h2⟩ := clone_state e c heap heap1 h
    exact ⟨h1, h2⟩
  · intro heap target buffer s1 h
    exact ensures_unpack ctx target.prestress_
      { heap := heap, self := target, buffer := buffer } () s1 rfl h

/-- Witness of C15 as amended: the blank instance of a run without prestress, into which the
buffer of a MULF entity is unpacked. -/
theorem prestress_presence_witness :
    ((exBlank.prestress_.isSome = true ↔
        (exProblemNone.get_parameter_list = true ∧ is_mulf exProblemNone.get_type = true)) ∧
      (exBlank.prestress_.isSome = true ↔ is_mulf exBlank.pstype_ = true)) ∧
    (exEntityMulf.prestress_.isSome = true ↔
      (is_mulf exEntityMulf.pstype_ = true ∨ exBlank.prestress_.isSome = true)) :=
  ⟨(prestress_presence exCtx).1 exProblemNone (-1) (-1) [] [] exBlank exBlank_ctor,
    (prestress_presence exCtx).2.2 [] exBlank
      ((SoTet10.pack exCtx exHeap exEntityMulf).run []).2
      { heap := [[7, 8, 9, 10]], self := exEntityMulf, buffer := [] } exBlank_unpack_mulf⟩

end InvariantClaims

end FourC
